import Mathlib

/-! rocker-compose: `compose/config/convert.go`

A shallow embedding of the three functions of `convert.go`

* `NewFromDocker`    : recover a container spec from the labels of a docker container,
* `GetAPIConfig`     : project a container spec to a `docker.Config`,
* `GetAPIHostConfig` : project a container spec to a `docker.HostConfig`,

followed by theorems about them.

Conventions of the embedding.

* A Go pointer `*T` that the code tests against `nil` is an `Option T`.
* A Go slice is a `Slice α = Option (List α)`: `none` is the `nil` slice, `some []` an
  empty non-nil slice.  `len` and `range` do not tell the two apart, `!= nil` does.
* A Go map is an `Option (GoMap K V)`: `none` is the `nil` map; a `GoMap` is an association
  list.  Reading a key takes the first entry with that key, writing a key replaces the
  entry with that key or appends a new one, `delete` drops every entry with that key.
* Go strings are Lean strings; int64 values are integers (no arithmetic is done on them).
* The receiver `config *Container` and the pointers `apiContainer`, `apiContainer.Config`
  are taken to be non-nil.
-/

namespace Compose

/-! ## Go runtime: strings, slices, maps -/

/-- Does the character list `s` contain `sub` as a contiguous block? -/
def containsChars : List Char → List Char → Bool
  | [], sub => sub.isPrefixOf []
  | c :: s, sub => sub.isPrefixOf (c :: s) || containsChars s sub

namespace strings

/-- Go `strings.Contains(s, substr)`. -/
def Contains (s substr : String) : Bool := containsChars s.data substr.data

/-- Go `strings.HasPrefix(s, p)`. -/
def HasPrefix (s p : String) : Bool := p.data.isPrefixOf s.data

end strings

/-- A Go slice: `none` is `nil`. -/
abbrev Slice (α : Type) := Option (List α)

namespace Slice

/-- The elements a `range` over the slice visits, in order. -/
def elems {α : Type} : Slice α → List α
  | none => []
  | some l => l

/-- Go `len(s)`. -/
def len {α : Type} (s : Slice α) : Nat := (elems s).length

end Slice

/-- A non-nil Go map, as an association list. -/
abbrev GoMap (K V : Type) := List (K × V)

namespace GoMap

variable {K V : Type} [DecidableEq K]

/-- Go `v, ok := m[k]` on a non-nil map. -/
def get? : GoMap K V → K → Option V
  | [], _ => none
  | (k', v) :: rest, k => if k' = k then some v else get? rest k

/-- Go `m[k] = v`. -/
def set : GoMap K V → K → V → GoMap K V
  | [], k, v => [(k, v)]
  | (k', v') :: rest, k, v => if k' = k then (k, v) :: rest else (k', v') :: set rest k v

/-- Go `delete(m, k)`. -/
def delete (m : GoMap K V) (k : K) : GoMap K V := m.filter (fun e => decide (e.1 ≠ k))

/-- The keys of the map. -/
def keys (m : GoMap K V) : List K := m.map Prod.fst

end GoMap

/-- Go `v, ok := m[k]` on a possibly nil map: a nil map has no keys. -/
def lookup {K V : Type} [DecidableEq K] (m : Option (GoMap K V)) (k : K) : Option V :=
  match m with
  | none => none
  | some m => GoMap.get? m k

/-! ## Types of go-dockerclient (the fields `convert.go` reads or writes) -/

/-- Go `docker.Port`, a string such as `80/tcp`. -/
abbrev DockerPort := String

/-- Go `docker.PortBinding`. -/
structure DockerPortBinding where
  HostIP : String
  HostPort : String
  deriving DecidableEq, Repr

/-- Go `docker.RestartPolicy`. -/
structure DockerRestartPolicy where
  Name : String
  MaximumRetryCount : Int
  deriving DecidableEq, Repr

/-- Go `docker.ULimit`. -/
structure DockerULimit where
  Name : String
  Soft : Int
  Hard : Int
  deriving DecidableEq, Repr

/-- Go `docker.LogConfig`; `Type_` is its field `Type`. -/
structure DockerLogConfig where
  Type_ : String
  Config : Option (GoMap String String)
  deriving DecidableEq, Repr

/-- Go `docker.Config`: the fields set by `GetAPIConfig`; all others stay zero. -/
structure DockerConfig where
  Entrypoint : Slice String
  Labels : Option (GoMap String String)
  Cmd : Slice String
  Image : String
  Hostname : String
  Domainname : String
  WorkingDir : String
  User : String
  Memory : Int
  MemorySwap : Int
  CPUSet : String
  CPUShares : Int
  NetworkDisabled : Bool
  ExposedPorts : Option (GoMap DockerPort Unit)
  Env : Slice String
  Volumes : Option (GoMap String Unit)
  deriving DecidableEq, Repr

/-- Go `docker.HostConfig`: the fields set by `GetAPIHostConfig`; all others stay zero. -/
structure DockerHostConfig where
  DNS : Slice String
  ExtraHosts : Slice String
  RestartPolicy : DockerRestartPolicy
  Memory : Int
  MemorySwap : Int
  NetworkMode : String
  PidMode : String
  UTSMode : String
  CPUSet : String
  Binds : Slice String
  Privileged : Bool
  PublishAllPorts : Bool
  PortBindings : Option (GoMap DockerPort (Slice DockerPortBinding))
  LogConfig : DockerLogConfig
  Links : Slice String
  VolumesFrom : Slice String
  Ulimits : Slice DockerULimit
  deriving DecidableEq, Repr

/-- Go `docker.Container`, as read by `NewFromDocker`: `ID`, `Name` and `Config.Labels`. -/
structure DockerContainer where
  ID : String
  Name : String
  ConfigLabels : Option (GoMap String String)
  deriving DecidableEq, Repr

/-! ## Types of package `config` declared outside `convert.go` -/

/-- Modelled from the spec: the type `RestartPolicy` (restart policy, name and retry count),
built in `convert.go` by the positional literal `RestartPolicy{"always", 0}`. -/
structure RestartPolicy where
  Name : String
  MaximumRetryCount : Int
  deriving DecidableEq, Repr

/-- Modelled from the spec: the type `ConfigMemory` (memory bytes), read through `Int64()`. -/
abbrev ConfigMemory := Int

/-- Modelled from the spec: a port-publish record (container port, host IP, host port);
`convert.go` reads its string fields `Port`, `HostIP` and `HostPort`. -/
structure PortBinding where
  Port : String
  HostIP : String
  HostPort : String
  deriving DecidableEq, Repr

/-- Modelled from the spec: a ulimit entry (name, soft limit, hard limit). -/
structure Ulimit where
  Name : String
  Soft : Int
  Hard : Int
  deriving DecidableEq, Repr

/-- The types of package `config` that `convert.go` uses only through their methods, and
the part of `Container` that `convert.go` never touches. -/
structure Decls where
  State : Type
  Net : Type
  Link : Type
  ContainerName : Type
  Other : Type

/-- Modelled from the spec: the Specification, type `Container`, with the fields that
`convert.go` reads. `Other` stands for every field `convert.go` does not mention. -/
structure Container (D : Decls) where
  Entrypoint : Slice String
  Labels : Option (GoMap String String)
  Cmd : Slice String
  Image : Option String
  Hostname : Option String
  Domainname : Option String
  Workdir : Option String
  User : Option String
  Memory : Option ConfigMemory
  MemorySwap : Option ConfigMemory
  CpusetCpus : Option String
  CPUShares : Option Int
  NetworkDisabled : Option Bool
  Expose : Slice String
  Ports : Slice PortBinding
  Env : Option (GoMap String String)
  Volumes : Slice String
  DNS : Slice String
  AddHost : Slice String
  Restart : Option RestartPolicy
  State : Option D.State
  Net : Option D.Net
  Pid : Option String
  Uts : Option String
  Privileged : Option Bool
  PublishAllPorts : Option Bool
  LogDriver : Option String
  LogOpt : Option (GoMap String String)
  Links : Slice D.Link
  VolumesFrom : Slice D.ContainerName
  Ulimits : Slice Ulimit
  Other : D.Other

/-- What `convert.go` calls but does not define: methods of package `config` declared in
other files, the YAML library, and the visiting order of `range` over a map. -/
structure Extern (D : Decls) where
  /-- Method `(*State).Bool()`, on a possibly nil receiver. -/
  StateBool : Option D.State → Bool
  /-- Method `(*RestartPolicy).ToDockerAPI()`, on a possibly nil receiver. -/
  RestartToDockerAPI : Option RestartPolicy → DockerRestartPolicy
  /-- Method `(*ConfigMemory).Int64()`, on a possibly nil receiver. -/
  MemoryInt64 : Option ConfigMemory → Int
  /-- Method `(*Net).String()`, on a possibly nil receiver. -/
  NetString : Option D.Net → String
  /-- Method `Link.String()`. -/
  LinkString : D.Link → String
  /-- Method `ContainerName.String()`. -/
  ContainerNameString : D.ContainerName → String
  /-- Library call `yaml.Unmarshal([]byte(data), &Container{})`: the filled container, or the
  text of the error. -/
  yamlUnmarshal : String → Except String (Container D)
  /-- The entries of a map in the order `for k, v := range m` visits them. -/
  mapRange : GoMap String String → List (String × String)

/-- The Go runtime visits every entry of a map exactly once. -/
def RangeVisitsAll {D : Decls} (E : Extern D) : Prop :=
  ∀ m : GoMap String String, (E.mapRange m).Perm m

/-- The errors `NewFromDocker` returns. -/
inductive Error where
  /-- The error value `ErrNotRockerCompose` with its `ContainerID`. -/
  | ErrNotRockerCompose (ContainerID : String)
  /-- The error made by `fmt.Errorf`, with its message. -/
  | Errorf (msg : String)
  deriving DecidableEq, Repr

/-! ## `NewFromDocker` -/

/-- The loop `for k := range container.Labels` of `NewFromDocker`, run over the keys `ks`
in the order `range` yields them: a key with the internal prefix is deleted. -/
def scrubLabels (labels : GoMap String String) (ks : List String) : GoMap String String :=
  ks.foldl
    (fun m k => if strings.HasPrefix k "rocker-compose-" then GoMap.delete m k else m)
    labels

/-- Go `NewFromDocker`: the container spec stored in the label `rocker-compose-config`
of a docker container, without its internal labels. `Except.error` is the return
`nil, err`, `Except.ok` the return `container, nil`. -/
def NewFromDocker {D : Decls} (E : Extern D) (apiContainer : DockerContainer) :
    Except Error (Container D) :=
  match lookup apiContainer.ConfigLabels "rocker-compose-config" with
  | none => Except.error (Error.ErrNotRockerCompose apiContainer.ID)
  | some yamlData =>
    match E.yamlUnmarshal yamlData with
    | Except.error err =>
      Except.error (Error.Errorf
        ("Failed to parse YAML config for container " ++ apiContainer.Name
          ++ ", error: " ++ err))
    | Except.ok container =>
      match container.Labels with
      | none => Except.ok container
      | some labels =>
        Except.ok
          { container with
            Labels := some (scrubLabels labels (GoMap.keys (E.mapRange labels))) }

/-! ## `GetAPIConfig` -/

/-- The two `expose` loops of `GetAPIConfig`: first the declared ports, then the
container ports of the published ones, each stored as a key of the set. -/
def exposeLoops (expose : List String) (ports : List PortBinding) : GoMap DockerPort Unit :=
  ports.foldl (fun m configPort => GoMap.set m configPort.Port ())
    (expose.foldl (fun m portBinding => GoMap.set m portBinding ()) [])

/-- The `env` loop of `GetAPIConfig`, run over the entries in the order `range` yields. -/
def envLoop (entries : List (String × String)) : List String :=
  entries.foldl (fun env kv => env ++ [kv.1 ++ "=" ++ kv.2]) []

/-- The `volumes` loop of `GetAPIConfig`: the entries without a colon become keys. -/
def hostVolumesLoop (volumes : List String) : GoMap String Unit :=
  volumes.foldl
    (fun hostVolumes volume =>
      if !strings.Contains volume ":" then GoMap.set hostVolumes volume () else hostVolumes)
    []

/-- Go `(*Container).GetAPIConfig`. Every field of the fresh `docker.Config` is assigned
at most once, so the result is given field by field; a field whose guard fails keeps its
zero value. -/
def GetAPIConfig {D : Decls} (E : Extern D) (config : Container D) : DockerConfig where
  Entrypoint := config.Entrypoint
  Labels := config.Labels
  Cmd := if config.Cmd.isSome then config.Cmd else none
  Image := match config.Image with | some v => v | none => ""
  Hostname := match config.Hostname with | some v => v | none => ""
  Domainname := match config.Domainname with | some v => v | none => ""
  WorkingDir := match config.Workdir with | some v => v | none => ""
  User := match config.User with | some v => v | none => ""
  Memory := if config.Memory.isSome then E.MemoryInt64 config.Memory else 0
  MemorySwap := if config.MemorySwap.isSome then E.MemoryInt64 config.MemorySwap else 0
  CPUSet := match config.CpusetCpus with | some v => v | none => ""
  CPUShares := match config.CPUShares with | some v => v | none => 0
  NetworkDisabled := match config.NetworkDisabled with | some v => v | none => false
  ExposedPorts :=
    if Slice.len config.Expose > 0 || Slice.len config.Ports > 0 then
      some (exposeLoops (Slice.elems config.Expose) (Slice.elems config.Ports))
    else none
  Env :=
    match config.Env with
    | some env => some (envLoop (E.mapRange env))
    | none => none
  Volumes :=
    match config.Volumes with
    | some volumes =>
      let hostVolumes := hostVolumesLoop volumes
      if hostVolumes.length > 0 then some hostVolumes else none
    | none => none

/-! ## `GetAPIHostConfig` -/

/-- The `Binds` loop of `GetAPIHostConfig`: the entries with a colon, appended in order. -/
def bindsLoop (volumes : List String) : List String :=
  volumes.foldl
    (fun binds volume => if strings.Contains volume ":" then binds ++ [volume] else binds)
    []

/-- One round of the `PortBindings` loop: make sure the key is present, then append the
binding to its list. -/
def portBindingsStep (m : GoMap DockerPort (Slice DockerPortBinding))
    (configPort : PortBinding) : GoMap DockerPort (Slice DockerPortBinding) :=
  let key : DockerPort := configPort.Port
  let binding : DockerPortBinding :=
    { HostIP := configPort.HostIP, HostPort := configPort.HostPort }
  let m1 := if (GoMap.get? m key).isNone then GoMap.set m key (some []) else m
  GoMap.set m1 key (some (Slice.elems ((GoMap.get? m1 key).getD none) ++ [binding]))

/-- The `PortBindings` loop of `GetAPIHostConfig`. -/
def portBindingsLoop (ports : List PortBinding) :
    GoMap DockerPort (Slice DockerPortBinding) :=
  ports.foldl portBindingsStep []

/-- The three logging statements of `GetAPIHostConfig`, run in order on the zero
`docker.LogConfig`. -/
def logConfig (logDriver : Option String) (logOpt : Option (GoMap String String)) :
    DockerLogConfig :=
  let l0 : DockerLogConfig := { Type_ := "", Config := none }
  let l1 : DockerLogConfig :=
    if logOpt.isNone && logDriver.isNone then
      { Type_ := "json-file", Config := some [("max-file", "5"), ("max-size", "100m")] }
    else l0
  let l2 : DockerLogConfig :=
    match logDriver with
    | some d => { l1 with Type_ := d }
    | none => l1
  match logOpt with
  | some opt =>
    let l3 : DockerLogConfig := if l2.Type_ = "" then { l2 with Type_ := "json-file" } else l2
    { l3 with Config := some opt }
  | none => l2

/-- Go `(*Container).GetAPIHostConfig`, field by field; `RestartPolicy` and `LogConfig`
are the only fields assigned more than once. -/
def GetAPIHostConfig {D : Decls} (E : Extern D) (config : Container D) :
    DockerHostConfig where
  DNS := config.DNS
  ExtraHosts := config.AddHost
  RestartPolicy :=
    if E.StateBool config.State && config.Restart.isNone then
      E.RestartToDockerAPI (some { Name := "always", MaximumRetryCount := 0 })
    else E.RestartToDockerAPI config.Restart
  Memory := E.MemoryInt64 config.Memory
  MemorySwap := E.MemoryInt64 config.MemorySwap
  NetworkMode := E.NetString config.Net
  PidMode := match config.Pid with | some v => v | none => ""
  UTSMode := match config.Uts with | some v => v | none => ""
  CPUSet := match config.CpusetCpus with | some v => v | none => ""
  Binds :=
    let binds := bindsLoop (Slice.elems config.Volumes)
    if binds.length > 0 then some binds else none
  Privileged := match config.Privileged with | some v => v | none => false
  PublishAllPorts := match config.PublishAllPorts with | some v => v | none => false
  PortBindings :=
    if Slice.len config.Ports > 0 then some (portBindingsLoop (Slice.elems config.Ports))
    else none
  LogConfig := logConfig config.LogDriver config.LogOpt
  Links :=
    if Slice.len config.Links > 0 then
      some ((Slice.elems config.Links).foldl (fun links link => links ++ [E.LinkString link]) [])
    else none
  VolumesFrom :=
    if Slice.len config.VolumesFrom > 0 then
      some ((Slice.elems config.VolumesFrom).foldl
        (fun vf volume => vf ++ [E.ContainerNameString volume]) [])
    else none
  Ulimits :=
    if Slice.len config.Ulimits > 0 then
      some ((Slice.elems config.Ulimits).foldl
        (fun us ulimit => us ++ [{ Name := ulimit.Name, Soft := ulimit.Soft, Hard := ulimit.Hard }])
        [])
    else none

/-! ## Sample inputs

Concrete collaborators and container specs on which the functions are evaluated. -/

/-- Sample declarations: states, networks, links and container names are strings. -/
@[reducible] def sampleDecls : Decls where
  State := String
  Net := String
  Link := String
  ContainerName := String
  Other := Unit

/-- The container spec with every field absent. -/
def emptySpec : Container sampleDecls where
  Entrypoint := none
  Labels := none
  Cmd := none
  Image := none
  Hostname := none
  Domainname := none
  Workdir := none
  User := none
  Memory := none
  MemorySwap := none
  CpusetCpus := none
  CPUShares := none
  NetworkDisabled := none
  Expose := none
  Ports := none
  Env := none
  Volumes := none
  DNS := none
  AddHost := none
  Restart := none
  State := none
  Net := none
  Pid := none
  Uts := none
  Privileged := none
  PublishAllPorts := none
  LogDriver := none
  LogOpt := none
  Links := none
  VolumesFrom := none
  Ulimits := none
  Other := ()

/-- A spec with two labels, one of them internal. -/
def labelledSpec : Container sampleDecls :=
  { emptySpec with
    Image := some "nginx"
    Labels := some [("rocker-compose-id", "7"), ("app", "web")] }

/-- Sample collaborators: a nil state counts as running, a nil receiver gives the zero
value, the payload `image: nginx` parses to `labelledSpec` and nothing else parses, and
`range` visits a map in the order of its entries. -/
def sampleExtern : Extern sampleDecls where
  StateBool := fun s => match s with
    | none => true
    | some st => decide (st = "running")
  RestartToDockerAPI := fun r => match r with
    | none => { Name := "", MaximumRetryCount := 0 }
    | some p => { Name := p.Name, MaximumRetryCount := p.MaximumRetryCount }
  MemoryInt64 := fun m => match m with
    | none => 0
    | some v => v
  NetString := fun n => match n with
    | none => ""
    | some v => v
  LinkString := fun l => l
  ContainerNameString := fun c => c
  yamlUnmarshal := fun data =>
    if data = "image: nginx" then Except.ok labelledSpec
    else Except.error "yaml: unmarshal errors"
  mapRange := fun m => m

/-- The spec of the volume example: one plain path, one bind mount. -/
def volumesSpec : Container sampleDecls :=
  { emptySpec with Volumes := some ["/data", "/host/path:/container/path:ro"] }

/-- The spec of the publish example: port `80/tcp` published on host ports 8080 and 8081. -/
def portsSpec : Container sampleDecls :=
  { emptySpec with
    Ports := some
      [ { Port := "80/tcp", HostIP := "0.0.0.0", HostPort := "8080" },
        { Port := "80/tcp", HostIP := "0.0.0.0", HostPort := "8081" } ] }

/-- A spec with explicit log options and no log driver. -/
def logOptSpec : Container sampleDecls :=
  { emptySpec with LogOpt := some [("max-size", "10m")] }

/-- A spec with an explicit log driver and no log options. -/
def syslogSpec : Container sampleDecls :=
  { emptySpec with LogDriver := some "syslog" }

/-- A spec whose log driver is explicitly the empty string, with explicit log options. -/
def emptyDriverSpec : Container sampleDecls :=
  { emptySpec with LogDriver := some "", LogOpt := some [("max-size", "10m")] }

/-- A spec that declares port `53/udp` and publishes port `80/tcp`. -/
def exposeSpec : Container sampleDecls :=
  { emptySpec with
    Expose := some ["53/udp"]
    Ports := some [{ Port := "80/tcp", HostIP := "", HostPort := "8080" }] }

/-- A docker container that rocker-compose did not start: no config label. -/
def unmanagedContainer : DockerContainer where
  ID := "4f2a9c1d7e3b"
  Name := "/db"
  ConfigLabels := some [("app", "db")]

/-- A docker container whose config label parses. -/
def managedContainer : DockerContainer where
  ID := "9b1e5a7c2d4f"
  Name := "/web"
  ConfigLabels := some [("app", "web"), ("rocker-compose-config", "image: nginx")]

/-- A docker container whose config label does not parse. -/
def brokenContainer : DockerContainer where
  ID := "c3d8e6f1a0b2"
  Name := "/cache"
  ConfigLabels := some [("rocker-compose-config", "image: [")]

/-- Modelled from the spec: the method `Int64()` of `ConfigMemory`, declared outside
`convert.go`, gives the memory bytes of a present value as they are. -/
def Int64IsValue {D : Decls} (E : Extern D) : Prop :=
  ∀ x : ConfigMemory, E.MemoryInt64 (some x) = x

/-- The sample collaborators on a run where `range` visits a map in the opposite order. -/
def reversedExtern : Extern sampleDecls :=
  { sampleExtern with mapRange := fun m => m.reverse }

/-- A spec with two environment variables. -/
def envSpec : Container sampleDecls :=
  { emptySpec with Env := some [("B", "2"), ("A", "1")] }

/-- A spec with two links and one volumes-from reference. -/
def linksSpec : Container sampleDecls :=
  { emptySpec with
    Links := some ["db:database", "cache"]
    VolumesFrom := some ["data"] }

/-- A spec with every scalar field of the run configuration set. -/
def scalarSpec : Container sampleDecls :=
  { emptySpec with
    Image := some "nginx"
    Hostname := some "web"
    Domainname := some "example.org"
    Workdir := some "/srv"
    User := some "www"
    CpusetCpus := some "0-1"
    CPUShares := some 512
    NetworkDisabled := some true
    Memory := some 1048576
    MemorySwap := some 2097152 }

/-- A spec whose hostname is explicitly empty and whose privileged flag is explicitly
false. -/
def explicitZeroSpec : Container sampleDecls :=
  { emptySpec with Hostname := some "", Privileged := some false }

/-- A spec with the explicit restart policy `no`. -/
def noRestartSpec : Container sampleDecls :=
  { emptySpec with Restart := some { Name := "no", MaximumRetryCount := 0 } }

/-- A spec whose explicit log driver is the empty string, without log options. -/
def emptyDriverOnlySpec : Container sampleDecls :=
  { emptySpec with LogDriver := some "" }

/-- A spec with two bind mounts, one of them twice, around a plain volume. -/
def bindsSpec : Container sampleDecls :=
  { emptySpec with Volumes := some ["/a:/b", "/data", "/c:/d:ro", "/a:/b"] }

/-- A spec with two environment variables, of different names, that render to the same
string `a==b`. -/
def collidingEnvSpec : Container sampleDecls :=
  { emptySpec with Env := some [("a", "=b"), ("a=", "b")] }

/-- Two specs have the same pair of projections. -/
@[reducible] def SamePair {D : Decls} (E : Extern D) (c₁ c₂ : Container D) : Prop :=
  GetAPIConfig E c₁ = GetAPIConfig E c₂ ∧ GetAPIHostConfig E c₁ = GetAPIHostConfig E c₂

/-- A spec whose lists are all present and empty. -/
def emptyListsSpec : Container sampleDecls :=
  { emptySpec with
    Expose := some []
    Ports := some []
    Volumes := some []
    Links := some []
    VolumesFrom := some []
    Ulimits := some [] }

/-- A spec with the explicit log driver `json-file` and the log options of `logOptSpec`. -/
def jsonFileOptSpec : Container sampleDecls :=
  { emptySpec with LogDriver := some "json-file", LogOpt := some [("max-size", "10m")] }

/-- A spec with the explicit restart policy `always` without a retry limit. -/
def alwaysRestartSpec : Container sampleDecls :=
  { emptySpec with Restart := some { Name := "always", MaximumRetryCount := 0 } }

/-- A spec with the plain volume `/data`. -/
def plainVolumeSpec : Container sampleDecls :=
  { emptySpec with Volumes := some ["/data"] }

/-- A spec that lists the plain volume `/data` twice. -/
def repeatedVolumeSpec : Container sampleDecls :=
  { emptySpec with Volumes := some ["/data", "/data"] }

/-- A spec with the one environment variable `a` of value `=b`. -/
def envLeftSpec : Container sampleDecls :=
  { emptySpec with Env := some [("a", "=b")] }

/-- A spec with the one environment variable `a=` of value `b`. -/
def envRightSpec : Container sampleDecls :=
  { emptySpec with Env := some [("a=", "b")] }

/-- A spec that publishes port `80/tcp` without declaring it. -/
def publishOnlySpec : Container sampleDecls :=
  { emptySpec with Ports := some [{ Port := "80/tcp", HostIP := "", HostPort := "8080" }] }

/-- A spec that publishes port `80/tcp` and also declares it. -/
def publishAndExposeSpec : Container sampleDecls :=
  { emptySpec with
    Expose := some ["80/tcp"]
    Ports := some [{ Port := "80/tcp", HostIP := "", HostPort := "8080" }] }

/-- Two specs agree up to absence: they have the same entrypoint, command, labels, DNS
list, extra hosts, environment, memory limits, network, restart policy, log driver and log
options; their states give the same `Bool()`; their lists have the same elements, an
absent list counting as empty; and their scalar fields have the same value, an absent
scalar counting as its zero value. -/
def AgreeUpToAbsence {D : Decls} (E : Extern D) (c₁ c₂ : Container D) : Prop :=
  (c₁.Entrypoint = c₂.Entrypoint ∧ c₁.Cmd = c₂.Cmd ∧ c₁.Labels = c₂.Labels ∧
    c₁.DNS = c₂.DNS ∧ c₁.AddHost = c₂.AddHost ∧ c₁.Env = c₂.Env ∧
    c₁.Memory = c₂.Memory ∧ c₁.MemorySwap = c₂.MemorySwap ∧ c₁.Net = c₂.Net ∧
    c₁.Restart = c₂.Restart ∧ c₁.LogDriver = c₂.LogDriver ∧ c₁.LogOpt = c₂.LogOpt) ∧
  E.StateBool c₁.State = E.StateBool c₂.State ∧
  (Slice.elems c₁.Expose = Slice.elems c₂.Expose ∧
    Slice.elems c₁.Ports = Slice.elems c₂.Ports ∧
    Slice.elems c₁.Volumes = Slice.elems c₂.Volumes ∧
    Slice.elems c₁.Links = Slice.elems c₂.Links ∧
    Slice.elems c₁.VolumesFrom = Slice.elems c₂.VolumesFrom ∧
    Slice.elems c₁.Ulimits = Slice.elems c₂.Ulimits) ∧
  (c₁.Image.getD "" = c₂.Image.getD "" ∧
    c₁.Hostname.getD "" = c₂.Hostname.getD "" ∧
    c₁.Domainname.getD "" = c₂.Domainname.getD "" ∧
    c₁.Workdir.getD "" = c₂.Workdir.getD "" ∧
    c₁.User.getD "" = c₂.User.getD "" ∧
    c₁.CpusetCpus.getD "" = c₂.CpusetCpus.getD "" ∧
    c₁.CPUShares.getD 0 = c₂.CPUShares.getD 0 ∧
    c₁.NetworkDisabled.getD false = c₂.NetworkDisabled.getD false ∧
    c₁.Pid.getD "" = c₂.Pid.getD "" ∧
    c₁.Uts.getD "" = c₂.Uts.getD "" ∧
    c₁.Privileged.getD false = c₂.Privileged.getD false ∧
    c₁.PublishAllPorts.getD false = c₂.PublishAllPorts.getD false)

/-! ## Lemmas on maps and loops -/

theorem GoMap.get?_set {K V : Type} [DecidableEq K] (m : GoMap K V) (k k' : K) (v : V) :
    GoMap.get? (GoMap.set m k v) k' = if k = k' then some v else GoMap.get? m k' := by
  induction m with
  | nil => simp [GoMap.set, GoMap.get?]
  | cons e rest ih =>
    obtain ⟨a, b⟩ := e
    by_cases hak : a = k
    · subst hak
      by_cases hak' : a = k' <;> simp [GoMap.set, GoMap.get?, hak']
    · by_cases hkk : k = k'
      · subst hkk
        simp [GoMap.set, GoMap.get?, hak, ih]
      · simp [GoMap.set, GoMap.get?, hak, hkk, ih]

theorem GoMap.set_ne_nil {K V : Type} [DecidableEq K] (m : GoMap K V) (k : K) (v : V) :
    GoMap.set m k v ≠ [] := by
  cases m with
  | nil => simp [GoMap.set]
  | cons e rest =>
    obtain ⟨a, b⟩ := e
    by_cases hak : a = k <;> simp [GoMap.set, hak]

theorem containsChars_colon (s : List Char) :
    containsChars s [':'] = true ↔ ':' ∈ s := by
  induction s with
  | nil => simp [containsChars, List.isPrefixOf]
  | cons c s ih =>
    simp only [containsChars, List.isPrefixOf, Bool.or_eq_true, ih, List.mem_cons]
    constructor
    · rintro (h | h)
      · left
        simpa using h
      · right
        exact h
    · rintro (h | h)
      · left
        simpa using h
      · right
        exact h

theorem bindsLoop_eq_filter (volumes : List String) :
    bindsLoop volumes = volumes.filter (fun v => strings.Contains v ":") := by
  have h : ∀ acc : List String,
      volumes.foldl
        (fun binds volume => if strings.Contains volume ":" then binds ++ [volume] else binds)
        acc = acc ++ volumes.filter (fun v => strings.Contains v ":") := by
    induction volumes with
    | nil => intro acc; simp
    | cons v vs ih =>
      intro acc
      simp only [List.foldl_cons, ih]
      by_cases hv : strings.Contains v ":" = true <;> simp [hv, List.filter_cons]
  simpa [bindsLoop] using h []

theorem hostVolumesLoop_get? (volumes : List String) (v : String) :
    GoMap.get? (hostVolumesLoop volumes) v =
      if v ∈ volumes ∧ strings.Contains v ":" = false then some () else none := by
  have h : ∀ acc : GoMap String Unit,
      GoMap.get? (volumes.foldl
        (fun hostVolumes volume =>
          if !strings.Contains volume ":" then GoMap.set hostVolumes volume ()
          else hostVolumes) acc) v =
      if v ∈ volumes ∧ strings.Contains v ":" = false then some () else GoMap.get? acc v := by
    induction volumes with
    | nil => intro acc; simp
    | cons w ws ih =>
      intro acc
      simp only [List.foldl_cons, ih, List.mem_cons]
      by_cases hw : strings.Contains w ":" = true
      · by_cases hv : v ∈ ws ∧ strings.Contains v ":" = false
        · simp [hv]
        · have : ¬ ((v = w ∨ v ∈ ws) ∧ strings.Contains v ":" = false) := by
            rintro ⟨h1 | h1, h2⟩
            · subst h1; simp [hw] at h2
            · exact hv ⟨h1, h2⟩
          simp [hv, this, hw]
      · have hw' : strings.Contains w ":" = false := by simpa using hw
        by_cases hv : v ∈ ws ∧ strings.Contains v ":" = false
        · simp [hv]
        · by_cases hvw : w = v
          · subst hvw
            simp [hw', GoMap.get?_set]
          · have hvw' : ¬ v = w := fun h => hvw h.symm
            have : ¬ ((v = w ∨ v ∈ ws) ∧ strings.Contains v ":" = false) := by
              rintro ⟨h1 | h1, h2⟩
              · exact hvw' h1
              · exact hv ⟨h1, h2⟩
            simp [hv, this, hw', GoMap.get?_set, hvw]
  simpa [hostVolumesLoop, GoMap.get?] using h []

theorem Slice.elems_some {α : Type} (l : List α) : Slice.elems (some l) = l := rfl

theorem Slice.elems_guard {α : Type} (l : List α) :
    Slice.elems (if l.length > 0 then some l else none) = l := by
  cases l <;> simp [Slice.elems]

theorem lookup_guard {K V : Type} [DecidableEq K] (m : GoMap K V) (k : K) :
    lookup (if m.length > 0 then some m else none) k = GoMap.get? m k := by
  cases m <;> simp [lookup, GoMap.get?]

/-! ## Volumes: anonymous volumes and bind mounts -/

/-- C1. Every entry of the volume list that contains a colon is an element of the
`Binds` of `GetAPIHostConfig` and is not a key of the `Volumes` of `GetAPIConfig`; every
entry that contains no colon is a key of `Volumes` and is not an element of `Binds`. -/
theorem volumes_split {D : Decls} (E : Extern D) (config : Container D) (v : String)
    (hv : v ∈ Slice.elems config.Volumes) :
    (strings.Contains v ":" = true →
      v ∈ Slice.elems (GetAPIHostConfig E config).Binds ∧
      lookup (GetAPIConfig E config).Volumes v = none) ∧
    (strings.Contains v ":" = false →
      lookup (GetAPIConfig E config).Volumes v = some () ∧
      v ∉ Slice.elems (GetAPIHostConfig E config).Binds) := by
  cases hvol : config.Volumes with
  | none => simp [hvol, Slice.elems] at hv
  | some volumes =>
    have hmem : v ∈ volumes := by simpa [hvol, Slice.elems] using hv
    have hbinds : ∀ x, x ∈ Slice.elems (GetAPIHostConfig E config).Binds ↔
        x ∈ volumes ∧ strings.Contains x ":" = true := by
      intro x
      simp only [GetAPIHostConfig, hvol, Slice.elems_some, Slice.elems_guard,
        bindsLoop_eq_filter, List.mem_filter]
    have hvols : lookup (GetAPIConfig E config).Volumes v =
        if strings.Contains v ":" = false then some () else none := by
      simp only [GetAPIConfig, hvol, lookup_guard, hostVolumesLoop_get?, hmem, true_and]
    constructor
    · intro hc
      exact ⟨(hbinds v).mpr ⟨hmem, hc⟩, by simp [hvols, hc]⟩
    · intro hc
      refine ⟨by simp [hvols, hc], ?_⟩
      intro hb
      have := ((hbinds v).mp hb).2
      simp [hc] at this

/-- Witness for C1: with volumes `/data` and `/host/path:/container/path:ro` the
anonymous volumes are exactly `/data` and the binds exactly the bind mount. -/
theorem volumes_split_witness :
    ("/host/path:/container/path:ro" ∈ Slice.elems volumesSpec.Volumes ∧
      strings.Contains "/host/path:/container/path:ro" ":" = true) ∧
    ("/host/path:/container/path:ro" ∈
        Slice.elems (GetAPIHostConfig sampleExtern volumesSpec).Binds ∧
      lookup (GetAPIConfig sampleExtern volumesSpec).Volumes
        "/host/path:/container/path:ro" = none) ∧
    (GetAPIConfig sampleExtern volumesSpec).Volumes = some [("/data", ())] ∧
    (GetAPIHostConfig sampleExtern volumesSpec).Binds =
      some ["/host/path:/container/path:ro"] := by
  have hmem : "/host/path:/container/path:ro" ∈ Slice.elems volumesSpec.Volumes := by
    simp [volumesSpec, emptySpec, Slice.elems]
  have hc : strings.Contains "/host/path:/container/path:ro" ":" = true := by decide
  exact ⟨⟨hmem, hc⟩, (volumes_split sampleExtern volumesSpec _ hmem).1 hc, by decide,
    by decide⟩

/-! ## Recovery of a spec from a docker container -/

theorem scrubLabels_eq_filter (labels : GoMap String String) (ks : List String) :
    scrubLabels labels ks =
      labels.filter
        (fun e => !(decide (e.1 ∈ ks) && strings.HasPrefix e.1 "rocker-compose-")) := by
  unfold scrubLabels
  induction ks generalizing labels with
  | nil => simp
  | cons k ks ih =>
    rw [List.foldl_cons, ih]
    by_cases hk : strings.HasPrefix k "rocker-compose-" = true
    · rw [if_pos hk, GoMap.delete, List.filter_filter]
      apply List.filter_congr
      intro e _
      by_cases hek : e.1 = k
      · simp [hek, hk]
      · simp [hek]
    · rw [if_neg hk]
      apply List.filter_congr
      intro e _
      by_cases hek : e.1 = k
      · have hk' : strings.HasPrefix k "rocker-compose-" = false := by simpa using hk
        simp [hek, hk']
      · simp [hek]

theorem scrubLabels_range {D : Decls} (E : Extern D) (hE : RangeVisitsAll E)
    (labels : GoMap String String) :
    scrubLabels labels (GoMap.keys (E.mapRange labels)) =
      labels.filter (fun e => !strings.HasPrefix e.1 "rocker-compose-") := by
  rw [scrubLabels_eq_filter]
  apply List.filter_congr
  intro e he
  have hmem : e.1 ∈ GoMap.keys (E.mapRange labels) :=
    List.mem_map_of_mem Prod.fst ((hE labels).mem_iff.mpr he)
  simp [hmem]

theorem GoMap.get?_filter_key {K V : Type} [DecidableEq K] (m : GoMap K V) (p : K → Bool)
    (k : K) :
    GoMap.get? (m.filter (fun e => p e.1)) k = if p k = true then GoMap.get? m k else none := by
  induction m with
  | nil => simp [GoMap.get?]
  | cons e rest ih =>
    obtain ⟨a, b⟩ := e
    by_cases hpa : p a = true
    · by_cases hak : a = k
      · subst hak
        simp [List.filter_cons, hpa, GoMap.get?]
      · simp [List.filter_cons, hpa, GoMap.get?, hak, ih]
    · by_cases hak : a = k
      · subst hak
        simp [List.filter_cons, hpa, GoMap.get?, ih]
      · simp [List.filter_cons, hpa, GoMap.get?, hak, ih]

/-- C2. When the label map of the docker container has no key `rocker-compose-config`,
`NewFromDocker` returns no spec and fails with `ErrNotRockerCompose` carrying the
identifier of that container. -/
theorem NewFromDocker_missing_label {D : Decls} (E : Extern D)
    (apiContainer : DockerContainer)
    (h : lookup apiContainer.ConfigLabels "rocker-compose-config" = none) :
    NewFromDocker E apiContainer =
      Except.error (Error.ErrNotRockerCompose apiContainer.ID) := by
  simp [NewFromDocker, h]

/-- Witness for C2: a container labelled only `app` is reported under its own identifier. -/
theorem NewFromDocker_missing_label_witness :
    lookup unmanagedContainer.ConfigLabels "rocker-compose-config" = none ∧
    NewFromDocker sampleExtern unmanagedContainer =
      Except.error (Error.ErrNotRockerCompose "4f2a9c1d7e3b") :=
  ⟨by decide, NewFromDocker_missing_label sampleExtern unmanagedContainer (by decide)⟩

/-- C3. When the label `rocker-compose-config` holds a payload that parses to the spec
`s`, `NewFromDocker` succeeds with `s` whose labels are replaced by those entries of the
labels of `s` whose key does not begin with `rocker-compose-`: no key of the result has the
prefix, every other key keeps its value, and every other field of `s` is unchanged. -/
theorem NewFromDocker_scrubs {D : Decls} (E : Extern D) (hE : RangeVisitsAll E)
    (apiContainer : DockerContainer) (payload : String) (s : Container D)
    (hl : lookup apiContainer.ConfigLabels "rocker-compose-config" = some payload)
    (hy : E.yamlUnmarshal payload = Except.ok s) :
    ∃ c : Container D,
      NewFromDocker E apiContainer = Except.ok c ∧
      c = { s with
            Labels := s.Labels.map
              (fun m => m.filter (fun e => !strings.HasPrefix e.1 "rocker-compose-")) } ∧
      (∀ k, strings.HasPrefix k "rocker-compose-" = true → lookup c.Labels k = none) ∧
      (∀ k, strings.HasPrefix k "rocker-compose-" = false →
        lookup c.Labels k = lookup s.Labels k) := by
  cases hlab : s.Labels with
  | none =>
    refine ⟨s, ?_, ?_, ?_, ?_⟩
    · simp [NewFromDocker, hl, hy, hlab]
    · cases s
      simp_all
    · intro k _
      simp [hlab, lookup]
    · intro k _
      simp [hlab]
  | some labels =>
    refine ⟨{ s with
      Labels := some (labels.filter (fun e => !strings.HasPrefix e.1 "rocker-compose-")) },
      ?_, ?_, ?_, ?_⟩
    · simp [NewFromDocker, hl, hy, hlab, scrubLabels_range E hE]
    · simp
    · intro k hk
      simp only [lookup]
      rw [GoMap.get?_filter_key labels (fun k => !strings.HasPrefix k "rocker-compose-") k]
      simp [hk]
    · intro k hk
      simp only [lookup]
      rw [GoMap.get?_filter_key labels (fun k => !strings.HasPrefix k "rocker-compose-") k]
      simp [hk]

/-- Witness for C3: the internal label `rocker-compose-id` is dropped, the label `app`
and the image are kept. -/
theorem NewFromDocker_scrubs_witness :
    ∃ c : Container sampleDecls,
      NewFromDocker sampleExtern managedContainer = Except.ok c ∧
      c = { labelledSpec with
            Labels := labelledSpec.Labels.map
              (fun m => m.filter (fun e => !strings.HasPrefix e.1 "rocker-compose-")) } ∧
      (∀ k, strings.HasPrefix k "rocker-compose-" = true → lookup c.Labels k = none) ∧
      (∀ k, strings.HasPrefix k "rocker-compose-" = false →
        lookup c.Labels k = lookup labelledSpec.Labels k) :=
  NewFromDocker_scrubs sampleExtern (fun _ => List.Perm.refl _) managedContainer
    "image: nginx" labelledSpec (by decide) (by rfl)

/-- C4. When the label `rocker-compose-config` is present and its payload does not
parse, `NewFromDocker` returns no spec and fails with an error whose message carries the
name of the container and the text of the parse error; and `NewFromDocker` fails only
then or when the label is missing. -/
theorem NewFromDocker_failures {D : Decls} (E : Extern D) (apiContainer : DockerContainer) :
    (∀ payload diag,
      lookup apiContainer.ConfigLabels "rocker-compose-config" = some payload →
      E.yamlUnmarshal payload = Except.error diag →
      NewFromDocker E apiContainer =
        Except.error (Error.Errorf
          ("Failed to parse YAML config for container " ++ apiContainer.Name
            ++ ", error: " ++ diag))) ∧
    (∀ e, NewFromDocker E apiContainer = Except.error e →
      lookup apiContainer.ConfigLabels "rocker-compose-config" = none ∨
      ∃ payload diag,
        lookup apiContainer.ConfigLabels "rocker-compose-config" = some payload ∧
        E.yamlUnmarshal payload = Except.error diag) := by
  constructor
  · intro payload diag hl hy
    simp [NewFromDocker, hl, hy]
  · intro e he
    cases hl : lookup apiContainer.ConfigLabels "rocker-compose-config" with
    | none => exact Or.inl rfl
    | some payload =>
      right
      cases hy : E.yamlUnmarshal payload with
      | error diag => exact ⟨payload, diag, rfl, hy⟩
      | ok s =>
        exfalso
        cases hlab : s.Labels <;> simp [NewFromDocker, hl, hy, hlab] at he

/-- Witness for C4: the payload of `brokenContainer` does not parse, and the error names
the container `/cache` and repeats the parse error. -/
theorem NewFromDocker_failures_witness :
    (lookup brokenContainer.ConfigLabels "rocker-compose-config" = some "image: [" ∧
      sampleExtern.yamlUnmarshal "image: [" = Except.error "yaml: unmarshal errors") ∧
    NewFromDocker sampleExtern brokenContainer =
      Except.error (Error.Errorf
        "Failed to parse YAML config for container /cache, error: yaml: unmarshal errors") :=
  ⟨⟨by decide, by rfl⟩,
    (NewFromDocker_failures sampleExtern brokenContainer).1 "image: [" "yaml: unmarshal errors"
      (by decide) (by rfl)⟩

/-! ## Restart policy and logging -/

/-- C5. When the state of the spec counts as running and the restart policy is absent,
the `RestartPolicy` of `GetAPIHostConfig` is the docker encoding of the policy named
`always` with retry count 0. -/
theorem restart_default_always {D : Decls} (E : Extern D) (config : Container D)
    (hs : E.StateBool config.State = true) (hr : config.Restart = none) :
    (GetAPIHostConfig E config).RestartPolicy =
      E.RestartToDockerAPI (some { Name := "always", MaximumRetryCount := 0 }) := by
  simp [GetAPIHostConfig, hs, hr]

/-- Witness for C5: the spec with every field absent restarts always. -/
theorem restart_default_always_witness :
    (sampleExtern.StateBool emptySpec.State = true ∧ emptySpec.Restart = none) ∧
    (GetAPIHostConfig sampleExtern emptySpec).RestartPolicy =
      sampleExtern.RestartToDockerAPI (some { Name := "always", MaximumRetryCount := 0 }) ∧
    (GetAPIHostConfig sampleExtern emptySpec).RestartPolicy =
      { Name := "always", MaximumRetryCount := 0 } :=
  ⟨⟨rfl, rfl⟩, restart_default_always sampleExtern emptySpec rfl rfl, by decide⟩

/-- C6. When both the log driver and the log options are absent, the `LogConfig` of
`GetAPIHostConfig` has type `json-file` and its options are exactly the two entries
`max-file` = `5` and `max-size` = `100m`. -/
theorem log_default_rotation {D : Decls} (E : Extern D) (config : Container D)
    (hd : config.LogDriver = none) (ho : config.LogOpt = none) :
    (GetAPIHostConfig E config).LogConfig =
      { Type_ := "json-file", Config := some [("max-file", "5"), ("max-size", "100m")] } := by
  simp [GetAPIHostConfig, logConfig, hd, ho]

/-- Witness for C6: the spec with every field absent gets the rotating `json-file` log. -/
theorem log_default_rotation_witness :
    (emptySpec.LogDriver = none ∧ emptySpec.LogOpt = none) ∧
    (GetAPIHostConfig sampleExtern emptySpec).LogConfig =
      { Type_ := "json-file", Config := some [("max-file", "5"), ("max-size", "100m")] } :=
  ⟨⟨rfl, rfl⟩, log_default_rotation sampleExtern emptySpec rfl rfl⟩

/-- Counterexample for C7: the log driver explicitly set to the empty string, together
with explicit log options, gives the type `json-file`, not the empty string. -/
theorem log_driver_empty_overridden :
    ¬ ∀ (D : Decls) (E : Extern D) (config : Container D) (d : String),
      config.LogDriver = some d → (GetAPIHostConfig E config).LogConfig.Type_ = d := by
  intro h
  have h1 := h sampleDecls sampleExtern emptyDriverSpec "" rfl
  have h2 : (GetAPIHostConfig sampleExtern emptyDriverSpec).LogConfig.Type_ = "json-file" := by
    decide
  rw [h2] at h1
  exact absurd h1 (by decide)

/-- C7, amended. When the log driver is explicitly set to `d`: if `d` is not the empty
string or the log options are absent, the type of the `LogConfig` is `d`; if `d` is the
empty string and the log options are set, the type is `json-file`. -/
theorem log_driver_explicit {D : Decls} (E : Extern D) (config : Container D) (d : String)
    (hd : config.LogDriver = some d) :
    (d ≠ "" ∨ config.LogOpt = none → (GetAPIHostConfig E config).LogConfig.Type_ = d) ∧
    (d = "" → config.LogOpt ≠ none →
      (GetAPIHostConfig E config).LogConfig.Type_ = "json-file") := by
  cases ho : config.LogOpt with
  | none => simp [GetAPIHostConfig, logConfig, hd, ho]
  | some opt =>
    by_cases hempty : d = ""
    · simp [GetAPIHostConfig, logConfig, hd, ho, hempty]
    · simp [GetAPIHostConfig, logConfig, hd, ho, hempty]

/-- Witness for C7, amended: the driver `syslog` without options is kept. -/
theorem log_driver_explicit_witness :
    syslogSpec.LogDriver = some "syslog" ∧
    (GetAPIHostConfig sampleExtern syslogSpec).LogConfig.Type_ = "syslog" :=
  ⟨rfl, (log_driver_explicit sampleExtern syslogSpec "syslog" rfl).1 (Or.inl (by decide))⟩

/-- C8. When the log options are explicitly set to `m`, the options of the `LogConfig`
are `m` itself, without the default rotation entries, and if the log driver is absent the
type is `json-file`. -/
theorem log_options_explicit {D : Decls} (E : Extern D) (config : Container D)
    (m : GoMap String String) (ho : config.LogOpt = some m) :
    (GetAPIHostConfig E config).LogConfig.Config = some m ∧
    (config.LogDriver = none →
      (GetAPIHostConfig E config).LogConfig.Type_ = "json-file") := by
  constructor
  · simp only [GetAPIHostConfig, logConfig, ho]
  · intro hd
    simp [GetAPIHostConfig, logConfig, ho, hd]

/-- Witness for C8: the single option `max-size` = `10m` is passed on alone, with the
type `json-file`. -/
theorem log_options_explicit_witness :
    (logOptSpec.LogOpt = some [("max-size", "10m")] ∧ logOptSpec.LogDriver = none) ∧
    (GetAPIHostConfig sampleExtern logOptSpec).LogConfig.Config =
      some [("max-size", "10m")] ∧
    (GetAPIHostConfig sampleExtern logOptSpec).LogConfig.Type_ = "json-file" :=
  ⟨⟨rfl, rfl⟩,
    (log_options_explicit sampleExtern logOptSpec [("max-size", "10m")] rfl).1,
    (log_options_explicit sampleExtern logOptSpec [("max-size", "10m")] rfl).2 rfl⟩

/-! ## Ports: bindings and exposed ports -/

theorem portBindingsStep_get? (m : GoMap DockerPort (Slice DockerPortBinding))
    (r : PortBinding) (p : DockerPort) :
    GoMap.get? (portBindingsStep m r) p =
      if r.Port = p then
        some (some (Slice.elems ((GoMap.get? m p).getD none)
          ++ [{ HostIP := r.HostIP, HostPort := r.HostPort }]))
      else GoMap.get? m p := by
  by_cases hp : r.Port = p
  · subst hp
    cases hm : GoMap.get? m r.Port with
    | none => simp [portBindingsStep, GoMap.get?_set, hm, Slice.elems]
    | some l => simp [portBindingsStep, GoMap.get?_set, hm]
  · cases hm : GoMap.get? m r.Port with
    | none => simp [portBindingsStep, GoMap.get?_set, hm, hp]
    | some l => simp [portBindingsStep, GoMap.get?_set, hm, hp]

theorem portBindingsLoop_get? (ports : List PortBinding) (p : DockerPort) :
    ∀ m : GoMap DockerPort (Slice DockerPortBinding),
      GoMap.get? (ports.foldl portBindingsStep m) p =
        if ports.filter (fun r => decide (r.Port = p)) = [] then GoMap.get? m p
        else some (some (Slice.elems ((GoMap.get? m p).getD none) ++
          (ports.filter (fun r => decide (r.Port = p))).map
            (fun r => ({ HostIP := r.HostIP, HostPort := r.HostPort } : DockerPortBinding)))) := by
  induction ports with
  | nil => intro m; simp
  | cons r rs ih =>
    intro m
    rw [List.foldl_cons, ih, portBindingsStep_get?]
    by_cases hp : r.Port = p
    · by_cases hrs : rs.filter (fun r => decide (r.Port = p)) = []
      · simp [hp, hrs, List.filter_cons, Slice.elems]
      · simp [hp, hrs, List.filter_cons, Slice.elems]
    · by_cases hrs : rs.filter (fun r => decide (r.Port = p)) = []
      · simp [hp, hrs, List.filter_cons]
      · simp [hp, hrs, List.filter_cons]

/-- C9. For every container port `p`, the list that the `PortBindings` of
`GetAPIHostConfig` holds for `p` is the sequence of (host IP, host port) pairs of the
publish records whose container port is `p`, in the order of the publish list, hence
with one entry per such record; a port without a publish record is not a key. -/
theorem portBindings_accumulate {D : Decls} (E : Extern D) (config : Container D)
    (p : DockerPort) :
    lookup (GetAPIHostConfig E config).PortBindings p =
      (if (Slice.elems config.Ports).filter (fun r => decide (r.Port = p)) = [] then none
      else some (some (((Slice.elems config.Ports).filter (fun r => decide (r.Port = p))).map
        (fun r => ({ HostIP := r.HostIP, HostPort := r.HostPort } : DockerPortBinding))))) ∧
    (Slice.elems ((lookup (GetAPIHostConfig E config).PortBindings p).getD none)).length =
      ((Slice.elems config.Ports).filter (fun r => decide (r.Port = p))).length := by
  have key : lookup (GetAPIHostConfig E config).PortBindings p =
      (if (Slice.elems config.Ports).filter (fun r => decide (r.Port = p)) = [] then none
      else some (some (((Slice.elems config.Ports).filter
        (fun r => decide (r.Port = p))).map
        (fun r => ({ HostIP := r.HostIP, HostPort := r.HostPort } : DockerPortBinding))))) := by
    by_cases hlen : Slice.len config.Ports > 0
    · simp only [GetAPIHostConfig, hlen, if_true, lookup, portBindingsLoop,
        portBindingsLoop_get?]
      simp [GoMap.get?, Slice.elems]
    · have hnil : Slice.elems config.Ports = [] := by
        simpa [Slice.len] using hlen
      simp [GetAPIHostConfig, hlen, lookup, hnil]
  refine ⟨key, ?_⟩
  rw [key]
  by_cases hf : (Slice.elems config.Ports).filter (fun r => decide (r.Port = p)) = []
  · rw [if_pos hf, hf]
    rfl
  · rw [if_neg hf]
    simp only [Option.getD_some, Slice.elems_some, List.length_map]

/-- Example for C9: two publish records for `80/tcp`, on host ports 8080 and 8081, give
the two bindings in that order, and `443/tcp` is not a key. -/
theorem portBindings_accumulate_witness :
    lookup (GetAPIHostConfig sampleExtern portsSpec).PortBindings "80/tcp" =
      some (some [{ HostIP := "0.0.0.0", HostPort := "8080" },
                  { HostIP := "0.0.0.0", HostPort := "8081" }]) ∧
    lookup (GetAPIHostConfig sampleExtern portsSpec).PortBindings "443/tcp" = none := by
  constructor
  · rw [(portBindings_accumulate sampleExtern portsSpec "80/tcp").1]
    decide
  · rw [(portBindings_accumulate sampleExtern portsSpec "443/tcp").1]
    decide

theorem exposeLoop_isSome {α : Type} (f : α → DockerPort) (xs : List α) (p : DockerPort) :
    ∀ m : GoMap DockerPort Unit,
      (GoMap.get? (xs.foldl (fun m x => GoMap.set m (f x) ()) m) p).isSome = true ↔
        (GoMap.get? m p).isSome = true ∨ ∃ x ∈ xs, f x = p := by
  induction xs with
  | nil => intro m; simp
  | cons x xs ih =>
    intro m
    rw [List.foldl_cons, ih, GoMap.get?_set]
    by_cases hx : f x = p
    · simp [hx]
    · simp [hx]

/-- C10. A port is a key of the `ExposedPorts` of `GetAPIConfig` exactly when it is one
of the declared ports or the container port of a publish record; when the expose list
and the publish list are both empty, `ExposedPorts` is absent. -/
theorem exposedPorts_union {D : Decls} (E : Extern D) (config : Container D) :
    (∀ p : DockerPort,
      (lookup (GetAPIConfig E config).ExposedPorts p).isSome = true ↔
        p ∈ Slice.elems config.Expose ∨ ∃ r ∈ Slice.elems config.Ports, r.Port = p) ∧
    (Slice.len config.Expose = 0 → Slice.len config.Ports = 0 →
      (GetAPIConfig E config).ExposedPorts = none) := by
  constructor
  · intro p
    by_cases hlen : Slice.len config.Expose > 0 ∨ Slice.len config.Ports > 0
    · have hg : (decide (Slice.len config.Expose > 0) || decide (Slice.len config.Ports > 0))
          = true := by simpa using hlen
      simp only [GetAPIConfig, hg, if_true, lookup, exposeLoops]
      rw [exposeLoop_isSome (fun r : PortBinding => r.Port),
        exposeLoop_isSome (fun x : String => x)]
      simp [GoMap.get?]
    · have h1 : Slice.elems config.Expose = [] := by
        have : ¬ Slice.len config.Expose > 0 := fun h => hlen (Or.inl h)
        simpa [Slice.len] using this
      have h2 : Slice.elems config.Ports = [] := by
        have : ¬ Slice.len config.Ports > 0 := fun h => hlen (Or.inr h)
        simpa [Slice.len] using this
      simp [GetAPIConfig, Slice.len, h1, h2, lookup]
  · intro h1 h2
    simp [GetAPIConfig, h1, h2]

/-- Witness for C10: the declared port `53/udp` and the published port `80/tcp` are both
exposed, and the spec without ports has no `ExposedPorts`. -/
theorem exposedPorts_union_witness :
    (GetAPIConfig sampleExtern exposeSpec).ExposedPorts =
      some [("53/udp", ()), ("80/tcp", ())] ∧
    (lookup (GetAPIConfig sampleExtern exposeSpec).ExposedPorts "80/tcp").isSome = true ∧
    (Slice.len emptySpec.Expose = 0 ∧ Slice.len emptySpec.Ports = 0) ∧
    (GetAPIConfig sampleExtern emptySpec).ExposedPorts = none :=
  ⟨by decide,
    ((exposedPorts_union sampleExtern exposeSpec).1 "80/tcp").mpr
      (Or.inr ⟨{ Port := "80/tcp", HostIP := "", HostPort := "8080" }, by decide, rfl⟩),
    ⟨rfl, rfl⟩,
    (exposedPorts_union sampleExtern emptySpec).2 rfl rfl⟩

/-! ## Environment -/

theorem envLoop_eq_map (entries : List (String × String)) :
    envLoop entries = entries.map (fun kv => kv.1 ++ "=" ++ kv.2) := by
  have h : ∀ acc : List String,
      entries.foldl (fun env kv => env ++ [kv.1 ++ "=" ++ kv.2]) acc =
        acc ++ entries.map (fun kv => kv.1 ++ "=" ++ kv.2) := by
    induction entries with
    | nil => intro acc; simp
    | cons e es ih => intro acc; simp [List.foldl_cons, ih]
  simpa [envLoop] using h []

theorem env_perm {D : Decls} (E : Extern D) (hE : RangeVisitsAll E)
    (env : GoMap String String) :
    (envLoop (E.mapRange env)).Perm (env.map (fun kv => kv.1 ++ "=" ++ kv.2)) := by
  rw [envLoop_eq_map]
  exact (hE env).map _

/-- Counterexample for C11: the two variables `a` with value `=b` and `a=` with value `b`
have different names and both render to `a==b`, so that string occurs twice in `Env`,
not once. -/
theorem env_rendering_collides :
    collidingEnvSpec.Env = some [("a", "=b"), ("a=", "b")] ∧
    (GoMap.keys [(("a" : String), ("=b" : String)), ("a=", "b")]).Nodup ∧
    RangeVisitsAll sampleExtern ∧
    (GetAPIConfig sampleExtern collidingEnvSpec).Env = some ["a==b", "a==b"] ∧
    (Slice.elems (GetAPIConfig sampleExtern collidingEnvSpec).Env).count
      ("a" ++ "=" ++ "=b") = 2 ∧
    ¬ (∀ (D : Decls) (E : Extern D), RangeVisitsAll E →
        ∀ (config : Container D) (env : GoMap String String), config.Env = some env →
          (GoMap.keys env).Nodup →
          ∀ kv ∈ env,
            (Slice.elems (GetAPIConfig E config).Env).count (kv.1 ++ "=" ++ kv.2) = 1) := by
  have hE : RangeVisitsAll sampleExtern := fun _ => List.Perm.refl _
  have hk : (GoMap.keys [(("a" : String), ("=b" : String)), ("a=", "b")]).Nodup := by
    decide
  have hc : (Slice.elems (GetAPIConfig sampleExtern collidingEnvSpec).Env).count
      ("a" ++ "=" ++ "=b") = 2 := by decide
  refine ⟨rfl, hk, hE, by decide, hc, ?_⟩
  intro h
  have h1 := h sampleDecls sampleExtern hE collidingEnvSpec [("a", "=b"), ("a=", "b")] rfl hk
    ("a", "=b") (by decide)
  rw [hc] at h1
  exact absurd h1 (by decide)

/-- C11, amended. When the environment mapping is present, the `Env` of `GetAPIConfig` is
present and holds one string `k=v` per entry of the mapping and nothing else: it is a
permutation of the rendered entries, so every string occurs in it as many times as there
are entries that render to that string (once when the renderings are distinct), it has as
many elements as the mapping has entries, and it is the empty sequence for an empty
mapping. When the mapping is absent, `Env` is absent. -/
theorem env_rendered {D : Decls} (E : Extern D) (hE : RangeVisitsAll E)
    (config : Container D) :
    (∀ env, config.Env = some env →
      ∃ l, (GetAPIConfig E config).Env = some l ∧
        l.Perm (env.map (fun kv => kv.1 ++ "=" ++ kv.2)) ∧
        l.length = env.length ∧
        (∀ s, s ∈ l ↔ ∃ kv ∈ env, kv.1 ++ "=" ++ kv.2 = s) ∧
        (∀ s, l.count s = (env.map (fun kv => kv.1 ++ "=" ++ kv.2)).count s) ∧
        ((env.map (fun kv => kv.1 ++ "=" ++ kv.2)).Nodup →
          ∀ kv ∈ env, l.count (kv.1 ++ "=" ++ kv.2) = 1)) ∧
    (config.Env = some [] → (GetAPIConfig E config).Env = some []) ∧
    (config.Env = none → (GetAPIConfig E config).Env = none) := by
  refine ⟨?_, ?_, ?_⟩
  · intro env henv
    have hperm := env_perm E hE env
    refine ⟨envLoop (E.mapRange env), by simp [GetAPIConfig, henv], hperm, ?_, ?_, ?_, ?_⟩
    · simpa using hperm.length_eq
    · intro s
      rw [hperm.mem_iff]
      simp
    · intro s
      exact hperm.count_eq s
    · intro hnd kv hkv
      rw [hperm.count_eq]
      exact List.count_eq_one_of_mem hnd (List.mem_map_of_mem _ hkv)
  · intro henv
    have hperm := env_perm E hE []
    have hnil : envLoop (E.mapRange []) = [] := by simpa using hperm
    simp [GetAPIConfig, henv, hnil]
  · intro henv
    simp [GetAPIConfig, henv]

/-- Witness for C11, amended: the variables `B=2` and `A=1` are both rendered, one string
each. -/
theorem env_rendered_witness :
    RangeVisitsAll sampleExtern ∧
    (GetAPIConfig sampleExtern envSpec).Env = some ["B=2", "A=1"] ∧
    (∃ l, (GetAPIConfig sampleExtern envSpec).Env = some l ∧
      l.Perm ([("B", "2"), ("A", "1")].map (fun kv => kv.1 ++ "=" ++ kv.2)) ∧
      l.length = 2) := by
  have hE : RangeVisitsAll sampleExtern := fun _ => List.Perm.refl _
  obtain ⟨l, h1, h2, h3, _⟩ :=
    (env_rendered sampleExtern hE envSpec).1 [("B", "2"), ("A", "1")] rfl
  exact ⟨hE, by decide, l, h1, h2, h3⟩

/-- Counterexample for C12: on two runs whose `range` visits the map in opposite orders,
the same spec gives the two different sequences `B=2, A=1` and `A=1, B=2`; the first is
not sorted by key. -/
theorem env_order_depends_on_range :
    RangeVisitsAll sampleExtern ∧ RangeVisitsAll reversedExtern ∧
    (GetAPIConfig sampleExtern envSpec).Env = some ["B=2", "A=1"] ∧
    (GetAPIConfig reversedExtern envSpec).Env = some ["A=1", "B=2"] ∧
    ¬ (∀ (E₁ E₂ : Extern sampleDecls), RangeVisitsAll E₁ → RangeVisitsAll E₂ →
        ∀ config : Container sampleDecls,
          (GetAPIConfig E₁ config).Env = (GetAPIConfig E₂ config).Env) := by
  have h1 : RangeVisitsAll sampleExtern := fun _ => List.Perm.refl _
  have h2 : RangeVisitsAll reversedExtern := fun m => List.reverse_perm m
  have e1 : (GetAPIConfig sampleExtern envSpec).Env = some ["B=2", "A=1"] := by decide
  have e2 : (GetAPIConfig reversedExtern envSpec).Env = some ["A=1", "B=2"] := by decide
  refine ⟨h1, h2, e1, e2, ?_⟩
  intro h
  have := h sampleExtern reversedExtern h1 h2 envSpec
  rw [e1, e2] at this
  exact absurd this (by decide)

/-- C12, amended. The `Env` of `GetAPIConfig` is a function of the environment mapping
and of the order in which `range` visits it: with the same visiting order two projections
give the same sequence, and with any two visiting orders they give the same entries with
the same multiplicities, present together or absent together. -/
theorem env_determined_up_to_order {D : Decls} (E₁ E₂ : Extern D)
    (h₁ : RangeVisitsAll E₁) (h₂ : RangeVisitsAll E₂) (config : Container D) :
    (E₁.mapRange = E₂.mapRange →
      (GetAPIConfig E₁ config).Env = (GetAPIConfig E₂ config).Env) ∧
    (Slice.elems (GetAPIConfig E₁ config).Env).Perm
      (Slice.elems (GetAPIConfig E₂ config).Env) ∧
    ((GetAPIConfig E₁ config).Env.isSome = (GetAPIConfig E₂ config).Env.isSome) := by
  cases henv : config.Env with
  | none => simp [GetAPIConfig, henv, Slice.elems]
  | some env =>
    refine ⟨?_, ?_, ?_⟩
    · intro hr
      simp [GetAPIConfig, henv, hr]
    · simp only [GetAPIConfig, henv, Slice.elems_some]
      exact (env_perm E₁ h₁ env).trans (env_perm E₂ h₂ env).symm
    · simp [GetAPIConfig, henv]

/-- Witness for C12, amended: the two opposite visiting orders give permutations of
each other. -/
theorem env_determined_up_to_order_witness :
    (RangeVisitsAll sampleExtern ∧ RangeVisitsAll reversedExtern) ∧
    (Slice.elems (GetAPIConfig sampleExtern envSpec).Env).Perm
      (Slice.elems (GetAPIConfig reversedExtern envSpec).Env) :=
  ⟨⟨fun _ => List.Perm.refl _, fun m => List.reverse_perm m⟩,
    (env_determined_up_to_order sampleExtern reversedExtern (fun _ => List.Perm.refl _)
      (fun m => List.reverse_perm m) envSpec).2.1⟩

/-! ## Links, scalar fields, binds, explicit restart policy, log type -/

theorem appendLoop_eq_map {α β : Type} (f : α → β) (xs : List α) :
    xs.foldl (fun acc x => acc ++ [f x]) [] = xs.map f := by
  have h : ∀ acc : List β, xs.foldl (fun acc x => acc ++ [f x]) acc = acc ++ xs.map f := by
    induction xs with
    | nil => intro acc; simp
    | cons x xs ih => intro acc; simp [List.foldl_cons, ih]
  simpa using h []

/-- C13. When the link list is empty, the `Links` of `GetAPIHostConfig` is absent;
otherwise it is the link list rendered element by element with `String()`, in the same
order and of the same length. The same holds for `VolumesFrom` and the volumes-from
list. -/
theorem links_rendered {D : Decls} (E : Extern D) (config : Container D) :
    (Slice.len config.Links = 0 → (GetAPIHostConfig E config).Links = none) ∧
    (Slice.len config.Links > 0 →
      (GetAPIHostConfig E config).Links =
        some ((Slice.elems config.Links).map E.LinkString) ∧
      Slice.len (GetAPIHostConfig E config).Links = Slice.len config.Links) ∧
    (Slice.len config.VolumesFrom = 0 → (GetAPIHostConfig E config).VolumesFrom = none) ∧
    (Slice.len config.VolumesFrom > 0 →
      (GetAPIHostConfig E config).VolumesFrom =
        some ((Slice.elems config.VolumesFrom).map E.ContainerNameString) ∧
      Slice.len (GetAPIHostConfig E config).VolumesFrom = Slice.len config.VolumesFrom) := by
  refine ⟨?_, ?_, ?_, ?_⟩
  · intro h
    simp [GetAPIHostConfig, h]
  · intro h
    have hl : (GetAPIHostConfig E config).Links =
        some ((Slice.elems config.Links).map E.LinkString) := by
      simp only [GetAPIHostConfig, h, if_true]
      rw [appendLoop_eq_map E.LinkString]
    refine ⟨hl, ?_⟩
    rw [hl]
    simp [Slice.len, Slice.elems_some]
  · intro h
    simp [GetAPIHostConfig, h]
  · intro h
    have hl : (GetAPIHostConfig E config).VolumesFrom =
        some ((Slice.elems config.VolumesFrom).map E.ContainerNameString) := by
      simp only [GetAPIHostConfig, h, if_true]
      rw [appendLoop_eq_map E.ContainerNameString]
    refine ⟨hl, ?_⟩
    rw [hl]
    simp [Slice.len, Slice.elems_some]

/-- Witness for C13: two links and one volumes-from reference are rendered in order, and
the spec without links has no `Links`. -/
theorem links_rendered_witness :
    (Slice.len linksSpec.Links > 0 ∧ Slice.len emptySpec.Links = 0) ∧
    (GetAPIHostConfig sampleExtern linksSpec).Links = some ["db:database", "cache"] ∧
    (GetAPIHostConfig sampleExtern linksSpec).VolumesFrom = some ["data"] ∧
    (GetAPIHostConfig sampleExtern emptySpec).Links = none :=
  ⟨⟨by decide, by decide⟩,
    ((links_rendered sampleExtern linksSpec).2.1 (by decide)).1,
    ((links_rendered sampleExtern linksSpec).2.2.2 (by decide)).1,
    (links_rendered sampleExtern emptySpec).1 (by decide)⟩

/-- C14. Each of the scalar fields image, hostname, domain name, working directory, user,
CPU set, CPU shares, network-disabled, memory and memory+swap, when present with value
`x`, gives `x` in the corresponding field of `GetAPIConfig`, and when absent gives the zero
value there; for the two memory fields `Int64()` is taken to return the value itself. -/
theorem scalars_copied {D : Decls} (E : Extern D) (hE : Int64IsValue E)
    (config : Container D) :
    ((∀ x, config.Image = some x → (GetAPIConfig E config).Image = x) ∧
      (config.Image = none → (GetAPIConfig E config).Image = "")) ∧
    ((∀ x, config.Hostname = some x → (GetAPIConfig E config).Hostname = x) ∧
      (config.Hostname = none → (GetAPIConfig E config).Hostname = "")) ∧
    ((∀ x, config.Domainname = some x → (GetAPIConfig E config).Domainname = x) ∧
      (config.Domainname = none → (GetAPIConfig E config).Domainname = "")) ∧
    ((∀ x, config.Workdir = some x → (GetAPIConfig E config).WorkingDir = x) ∧
      (config.Workdir = none → (GetAPIConfig E config).WorkingDir = "")) ∧
    ((∀ x, config.User = some x → (GetAPIConfig E config).User = x) ∧
      (config.User = none → (GetAPIConfig E config).User = "")) ∧
    ((∀ x, config.CpusetCpus = some x → (GetAPIConfig E config).CPUSet = x) ∧
      (config.CpusetCpus = none → (GetAPIConfig E config).CPUSet = "")) ∧
    ((∀ x, config.CPUShares = some x → (GetAPIConfig E config).CPUShares = x) ∧
      (config.CPUShares = none → (GetAPIConfig E config).CPUShares = 0)) ∧
    ((∀ x, config.NetworkDisabled = some x → (GetAPIConfig E config).NetworkDisabled = x) ∧
      (config.NetworkDisabled = none → (GetAPIConfig E config).NetworkDisabled = false)) ∧
    ((∀ x, config.Memory = some x → (GetAPIConfig E config).Memory = x) ∧
      (config.Memory = none → (GetAPIConfig E config).Memory = 0)) ∧
    ((∀ x, config.MemorySwap = some x → (GetAPIConfig E config).MemorySwap = x) ∧
      (config.MemorySwap = none → (GetAPIConfig E config).MemorySwap = 0)) := by
  refine ⟨⟨?_, ?_⟩, ⟨?_, ?_⟩, ⟨?_, ?_⟩, ⟨?_, ?_⟩, ⟨?_, ?_⟩, ⟨?_, ?_⟩, ⟨?_, ?_⟩, ⟨?_, ?_⟩,
    ⟨?_, ?_⟩, ⟨?_, ?_⟩⟩
  all_goals first
    | (intro x h; simp [GetAPIConfig, h, hE x])
    | (intro x h; simp [GetAPIConfig, h])
    | (intro h; simp [GetAPIConfig, h])

/-- Witness for C14: the scalar fields of `scalarSpec` arrive unchanged, and the absent
image of `emptySpec` gives the empty string. -/
theorem scalars_copied_witness :
    Int64IsValue sampleExtern ∧
    (GetAPIConfig sampleExtern scalarSpec).Image = "nginx" ∧
    (GetAPIConfig sampleExtern scalarSpec).CPUShares = 512 ∧
    (GetAPIConfig sampleExtern scalarSpec).NetworkDisabled = true ∧
    (GetAPIConfig sampleExtern scalarSpec).Memory = 1048576 ∧
    (GetAPIConfig sampleExtern scalarSpec).MemorySwap = 2097152 ∧
    (GetAPIConfig sampleExtern emptySpec).Image = "" :=
  ⟨fun _ => rfl,
    (scalars_copied sampleExtern (fun _ => rfl) scalarSpec).1.1 "nginx" rfl,
    (scalars_copied sampleExtern (fun _ => rfl) scalarSpec).2.2.2.2.2.2.1.1 512 rfl,
    (scalars_copied sampleExtern (fun _ => rfl) scalarSpec).2.2.2.2.2.2.2.1.1 true rfl,
    (scalars_copied sampleExtern (fun _ => rfl) scalarSpec).2.2.2.2.2.2.2.2.1.1 1048576 rfl,
    (scalars_copied sampleExtern (fun _ => rfl) scalarSpec).2.2.2.2.2.2.2.2.2.1 2097152 rfl,
    (scalars_copied sampleExtern (fun _ => rfl) emptySpec).1.2 rfl⟩

/-- C17. The `Binds` of `GetAPIHostConfig` is the subsequence of the volume list made of
the entries that contain a colon, copied as they are, in their order and with repeats
kept; when no entry contains a colon, `Binds` is absent. -/
theorem binds_subsequence {D : Decls} (E : Extern D) (config : Container D) :
    (GetAPIHostConfig E config).Binds =
      (if (Slice.elems config.Volumes).filter (fun v => strings.Contains v ":") = [] then none
      else some ((Slice.elems config.Volumes).filter (fun v => strings.Contains v ":"))) ∧
    (Slice.elems (GetAPIHostConfig E config).Binds).Sublist (Slice.elems config.Volumes) ∧
    (∀ v, (Slice.elems (GetAPIHostConfig E config).Binds).count v =
      if strings.Contains v ":" = true then (Slice.elems config.Volumes).count v else 0) := by
  have hb : (GetAPIHostConfig E config).Binds =
      (if (Slice.elems config.Volumes).filter (fun v => strings.Contains v ":") = [] then none
      else some ((Slice.elems config.Volumes).filter (fun v => strings.Contains v ":"))) := by
    simp only [GetAPIHostConfig, bindsLoop_eq_filter]
    cases hf : (Slice.elems config.Volumes).filter (fun v => strings.Contains v ":") with
    | nil => simp
    | cons a l => simp
  have he : Slice.elems (GetAPIHostConfig E config).Binds =
      (Slice.elems config.Volumes).filter (fun v => strings.Contains v ":") := by
    simp only [GetAPIHostConfig, bindsLoop_eq_filter, Slice.elems_guard]
  refine ⟨hb, ?_, ?_⟩
  · rw [he]
    exact List.filter_sublist _
  · intro v
    rw [he]
    by_cases hv : strings.Contains v ":" = true
    · rw [if_pos hv]
      exact List.count_filter hv
    · rw [if_neg hv]
      apply List.count_eq_zero_of_not_mem
      intro hmem
      exact hv (List.mem_filter.mp hmem).2

/-- Example for C17: the bind mounts are kept in order, the repeated one twice, and a
spec with only a plain volume has no `Binds`. -/
theorem binds_subsequence_witness :
    (GetAPIHostConfig sampleExtern bindsSpec).Binds = some ["/a:/b", "/c:/d:ro", "/a:/b"] ∧
    (GetAPIHostConfig sampleExtern
      { emptySpec with Volumes := some ["/data"] }).Binds = none := by
  constructor
  · rw [(binds_subsequence sampleExtern bindsSpec).1]
    decide
  · rw [(binds_subsequence sampleExtern { emptySpec with Volumes := some ["/data"] }).1]
    decide

/-- C18. When the restart policy is explicitly set to `r`, the `RestartPolicy` of
`GetAPIHostConfig` is the docker encoding of `r`, whatever the state of the spec says:
the default `always` never replaces an explicit policy. -/
theorem restart_explicit_kept {D : Decls} (E : Extern D) (config : Container D)
    (r : RestartPolicy) (hr : config.Restart = some r) :
    (GetAPIHostConfig E config).RestartPolicy = E.RestartToDockerAPI (some r) := by
  simp [GetAPIHostConfig, hr]

/-- Witness for C18: the explicit policy `no` stays, although the state counts as
running. -/
theorem restart_explicit_kept_witness :
    (noRestartSpec.Restart = some { Name := "no", MaximumRetryCount := 0 } ∧
      sampleExtern.StateBool noRestartSpec.State = true) ∧
    (GetAPIHostConfig sampleExtern noRestartSpec).RestartPolicy =
      sampleExtern.RestartToDockerAPI (some { Name := "no", MaximumRetryCount := 0 }) ∧
    (GetAPIHostConfig sampleExtern noRestartSpec).RestartPolicy =
      { Name := "no", MaximumRetryCount := 0 } :=
  ⟨⟨rfl, rfl⟩,
    restart_explicit_kept sampleExtern noRestartSpec { Name := "no", MaximumRetryCount := 0 }
      rfl,
    by decide⟩

/-- C20. The type of the `LogConfig` of `GetAPIHostConfig` is the empty string exactly
when the log driver is explicitly the empty string and the log options are absent. -/
theorem log_type_empty_iff {D : Decls} (E : Extern D) (config : Container D) :
    (GetAPIHostConfig E config).LogConfig.Type_ = "" ↔
      config.LogDriver = some "" ∧ config.LogOpt = none := by
  cases hd : config.LogDriver with
  | none =>
    cases ho : config.LogOpt with
    | none => simp [GetAPIHostConfig, logConfig, hd, ho]
    | some opt => simp [GetAPIHostConfig, logConfig, hd, ho]
  | some d =>
    cases ho : config.LogOpt with
    | none => simp [GetAPIHostConfig, logConfig, hd, ho]
    | some opt =>
      by_cases hempty : d = ""
      · simp [GetAPIHostConfig, logConfig, hd, ho, hempty]
      · simp [GetAPIHostConfig, logConfig, hd, ho, hempty]

/-- Example for C20: an explicit empty driver without options leaves the type empty; with
options the type is `json-file`. -/
theorem log_type_empty_iff_witness :
    (GetAPIHostConfig sampleExtern emptyDriverOnlySpec).LogConfig.Type_ = "" ∧
    (GetAPIHostConfig sampleExtern emptyDriverSpec).LogConfig.Type_ ≠ "" :=
  ⟨(log_type_empty_iff sampleExtern emptyDriverOnlySpec).mpr ⟨rfl, rfl⟩,
    fun h => absurd ((log_type_empty_iff sampleExtern emptyDriverSpec).mp h).2 (by decide)⟩

/-! ## Published ports are exposed -/

theorem lookup_PortBindings_isSome {D : Decls} (E : Extern D) (config : Container D)
    (p : DockerPort) :
    (lookup (GetAPIHostConfig E config).PortBindings p).isSome = true ↔
      ∃ r ∈ Slice.elems config.Ports, r.Port = p := by
  have hne : (Slice.elems config.Ports).filter (fun r => decide (r.Port = p)) ≠ [] ↔
      ∃ r ∈ Slice.elems config.Ports, r.Port = p := by
    simp [List.filter_eq_nil_iff]
  by_cases hlen : Slice.len config.Ports > 0
  · simp only [GetAPIHostConfig, hlen, if_true, lookup, portBindingsLoop,
      portBindingsLoop_get?]
    rw [← hne]
    by_cases hf : (Slice.elems config.Ports).filter (fun r => decide (r.Port = p)) = []
    · simp [hf, GoMap.get?]
    · simp [hf]
  · have hnil : Slice.elems config.Ports = [] := by
      simpa [Slice.len] using hlen
    simp [GetAPIHostConfig, hlen, lookup, hnil]

theorem lookup_ExposedPorts_of_published {D : Decls} (E : Extern D) (config : Container D)
    (p : DockerPort) (h : ∃ r ∈ Slice.elems config.Ports, r.Port = p) :
    (lookup (GetAPIConfig E config).ExposedPorts p).isSome = true := by
  have hlen : Slice.len config.Ports > 0 := by
    obtain ⟨r, hr, _⟩ := h
    simpa [Slice.len] using List.length_pos_of_mem hr
  have hg : (decide (Slice.len config.Expose > 0) || decide (Slice.len config.Ports > 0))
      = true := by simp [hlen]
  simp only [GetAPIConfig, hg, if_true, lookup, exposeLoops]
  rw [exposeLoop_isSome (fun r : PortBinding => r.Port)]
  exact Or.inr h

/-- C19. Every key of the `PortBindings` of `GetAPIHostConfig` is a key of the
`ExposedPorts` of `GetAPIConfig`: a published container port is also exposed. -/
theorem published_ports_exposed {D : Decls} (E : Extern D) (config : Container D)
    (p : DockerPort)
    (h : (lookup (GetAPIHostConfig E config).PortBindings p).isSome = true) :
    (lookup (GetAPIConfig E config).ExposedPorts p).isSome = true :=
  lookup_ExposedPorts_of_published E config p
    ((lookup_PortBindings_isSome E config p).mp h)

/-- Witness for C19: the published port `80/tcp` of `portsSpec` is exposed. -/
theorem published_ports_exposed_witness :
    (lookup (GetAPIHostConfig sampleExtern portsSpec).PortBindings "80/tcp").isSome = true ∧
    (lookup (GetAPIConfig sampleExtern portsSpec).ExposedPorts "80/tcp").isSome = true :=
  ⟨by decide, published_ports_exposed sampleExtern portsSpec "80/tcp" (by decide)⟩

/-! ## What the two projections keep of a spec -/

theorem Slice.elems_guard_map {α β : Type} (f : α → β) (s : Slice α) :
    Slice.elems (if Slice.len s > 0 then some ((Slice.elems s).map f) else none) =
      (Slice.elems s).map f := by
  unfold Slice.len
  cases Slice.elems s <;> simp [Slice.elems]

theorem lookup_PortBindings_eq {D : Decls} (E : Extern D) (config : Container D)
    (p : DockerPort) :
    lookup (GetAPIHostConfig E config).PortBindings p =
      (if (Slice.elems config.Ports).filter (fun r => decide (r.Port = p)) = [] then none
      else some (some (((Slice.elems config.Ports).filter (fun r => decide (r.Port = p))).map
        (fun r => ({ HostIP := r.HostIP, HostPort := r.HostPort } : DockerPortBinding))))) := by
  by_cases hlen : Slice.len config.Ports > 0
  · simp only [GetAPIHostConfig, hlen, if_true, lookup, portBindingsLoop,
      portBindingsLoop_get?]
    simp [GoMap.get?, Slice.elems]
  · have hnil : Slice.elems config.Ports = [] := by
      simpa [Slice.len] using hlen
    simp [GetAPIHostConfig, hlen, lookup, hnil]

theorem lookup_ExposedPorts_isSome {D : Decls} (E : Extern D) (config : Container D)
    (p : DockerPort) :
    (lookup (GetAPIConfig E config).ExposedPorts p).isSome = true ↔
      p ∈ Slice.elems config.Expose ∨ ∃ r ∈ Slice.elems config.Ports, r.Port = p := by
  by_cases hlen : Slice.len config.Expose > 0 ∨ Slice.len config.Ports > 0
  · have hg : (decide (Slice.len config.Expose > 0) || decide (Slice.len config.Ports > 0))
        = true := by simpa using hlen
    simp only [GetAPIConfig, hg, if_true, lookup, exposeLoops]
    rw [exposeLoop_isSome (fun r : PortBinding => r.Port),
      exposeLoop_isSome (fun x : String => x)]
    simp [GoMap.get?]
  · have h1 : Slice.elems config.Expose = [] := by
      have : ¬ Slice.len config.Expose > 0 := fun h => hlen (Or.inl h)
      simpa [Slice.len] using this
    have h2 : Slice.elems config.Ports = [] := by
      have : ¬ Slice.len config.Ports > 0 := fun h => hlen (Or.inr h)
      simpa [Slice.len] using this
    simp [GetAPIConfig, Slice.len, h1, h2, lookup]

theorem lookup_Volumes_eq {D : Decls} (E : Extern D) (config : Container D) (v : String) :
    lookup (GetAPIConfig E config).Volumes v =
      if v ∈ Slice.elems config.Volumes ∧ strings.Contains v ":" = false then some ()
      else none := by
  cases hvol : config.Volumes with
  | none => simp [GetAPIConfig, hvol, lookup, Slice.elems]
  | some volumes =>
    simp only [GetAPIConfig, hvol, lookup_guard, hostVolumesLoop_get?, Slice.elems_some]

theorem published_records_inj (p : String) :
    ∀ l₁ l₂ : List PortBinding, (∀ r ∈ l₁, r.Port = p) → (∀ r ∈ l₂, r.Port = p) →
      l₁.map (fun r => ({ HostIP := r.HostIP, HostPort := r.HostPort } : DockerPortBinding)) =
        l₂.map (fun r => ({ HostIP := r.HostIP, HostPort := r.HostPort } : DockerPortBinding)) →
      l₁ = l₂ := by
  intro l₁
  induction l₁ with
  | nil =>
    intro l₂ _ _ h
    cases l₂ with
    | nil => rfl
    | cons b l => simp at h
  | cons a l ih =>
    intro l₂ h₁ h₂ h
    cases l₂ with
    | nil => simp at h
    | cons b l' =>
      simp only [List.map_cons, List.cons.injEq, DockerPortBinding.mk.injEq] at h
      have ha : a.Port = p := h₁ a (List.mem_cons_self _ _)
      have hb : b.Port = p := h₂ b (List.mem_cons_self _ _)
      have hab : a = b := by
        cases a
        cases b
        simp_all
      have htl : l = l' :=
        ih l' (fun r hr => h₁ r (List.mem_cons_of_mem _ hr))
          (fun r hr => h₂ r (List.mem_cons_of_mem _ hr)) h.2
      rw [hab, htl]

/-- Counterexample for C15: each of these pairs consists of two different specs with the
same `docker.Config` and the same `docker.HostConfig`: every field absent against an
explicitly empty hostname and an explicitly false privileged flag; absent lists against
empty lists; log options with no driver against the same options with the driver
`json-file`; one plain volume against the same volume listed twice; a published port
against the same port published and declared; the variable `a` of value `=b` against the
variable `a=` of value `b`; and, when a nil state counts as running, no restart policy
against the explicit policy `always`. -/
theorem explicit_zero_not_represented :
    (emptySpec ≠ explicitZeroSpec ∧ SamePair sampleExtern emptySpec explicitZeroSpec) ∧
    (emptySpec ≠ emptyListsSpec ∧ SamePair sampleExtern emptySpec emptyListsSpec) ∧
    (logOptSpec ≠ jsonFileOptSpec ∧ SamePair sampleExtern logOptSpec jsonFileOptSpec) ∧
    (plainVolumeSpec ≠ repeatedVolumeSpec ∧
      SamePair sampleExtern plainVolumeSpec repeatedVolumeSpec) ∧
    (publishOnlySpec ≠ publishAndExposeSpec ∧
      SamePair sampleExtern publishOnlySpec publishAndExposeSpec) ∧
    (envLeftSpec ≠ envRightSpec ∧ SamePair sampleExtern envLeftSpec envRightSpec) ∧
    (emptySpec ≠ alwaysRestartSpec ∧
      ∀ E : Extern sampleDecls, E.StateBool emptySpec.State = true →
        SamePair E emptySpec alwaysRestartSpec) ∧
    ¬ (∀ (D : Decls) (E : Extern D) (c₁ c₂ : Container D), c₁ ≠ c₂ →
        (GetAPIConfig E c₁, GetAPIHostConfig E c₁) ≠
          (GetAPIConfig E c₂, GetAPIHostConfig E c₂)) := by
  have hne : emptySpec ≠ explicitZeroSpec := by
    intro h
    have := congrArg Container.Hostname h
    simp [emptySpec, explicitZeroSpec] at this
  have hsame : SamePair sampleExtern emptySpec explicitZeroSpec := by decide
  refine ⟨⟨hne, hsame⟩, ⟨?_, by decide⟩, ⟨?_, by decide⟩, ⟨?_, by decide⟩, ⟨?_, by decide⟩,
    ⟨?_, by decide⟩, ⟨?_, ?_⟩, ?_⟩
  · intro h
    have := congrArg Container.Ulimits h
    simp [emptySpec, emptyListsSpec] at this
  · intro h
    have := congrArg Container.LogDriver h
    simp [emptySpec, logOptSpec, jsonFileOptSpec] at this
  · intro h
    have := congrArg Container.Volumes h
    simp [emptySpec, plainVolumeSpec, repeatedVolumeSpec] at this
  · intro h
    have := congrArg Container.Expose h
    simp [emptySpec, publishOnlySpec, publishAndExposeSpec] at this
  · intro h
    have := congrArg Container.Env h
    simp [emptySpec, envLeftSpec, envRightSpec] at this
  · intro h
    have := congrArg Container.Restart h
    simp [emptySpec, alwaysRestartSpec] at this
  · intro E hE
    have hE' : E.StateBool none = true := hE
    constructor
    · rfl
    · simp [GetAPIHostConfig, emptySpec, alwaysRestartSpec, hE']
  · intro h
    exact h sampleDecls sampleExtern emptySpec explicitZeroSpec hne
      (by rw [hsame.1, hsame.2])

theorem samePair_exact {D : Decls} (E : Extern D) (c₁ c₂ : Container D)
    (h : SamePair E c₁ c₂) :
    c₁.Entrypoint = c₂.Entrypoint ∧ c₁.Cmd = c₂.Cmd ∧ c₁.Labels = c₂.Labels ∧
    c₁.DNS = c₂.DNS ∧ c₁.AddHost = c₂.AddHost := by
  obtain ⟨h₁, h₂⟩ := h
  have e1 := congrArg DockerConfig.Entrypoint h₁
  have e2 := congrArg DockerConfig.Cmd h₁
  have e3 := congrArg DockerConfig.Labels h₁
  have e4 := congrArg DockerHostConfig.DNS h₂
  have e5 := congrArg DockerHostConfig.ExtraHosts h₂
  simp only [GetAPIConfig, GetAPIHostConfig] at e1 e2 e3 e4 e5
  refine ⟨e1, ?_, e3, e4, e5⟩
  cases h : c₁.Cmd <;> cases h' : c₂.Cmd <;> simp_all

theorem samePair_scalars {D : Decls} (E : Extern D) (c₁ c₂ : Container D)
    (h : SamePair E c₁ c₂) :
    c₁.Image.getD "" = c₂.Image.getD "" ∧
    c₁.Hostname.getD "" = c₂.Hostname.getD "" ∧
    c₁.Domainname.getD "" = c₂.Domainname.getD "" ∧
    c₁.Workdir.getD "" = c₂.Workdir.getD "" ∧
    c₁.User.getD "" = c₂.User.getD "" ∧
    c₁.CpusetCpus.getD "" = c₂.CpusetCpus.getD "" ∧
    c₁.CPUShares.getD 0 = c₂.CPUShares.getD 0 ∧
    c₁.NetworkDisabled.getD false = c₂.NetworkDisabled.getD false ∧
    c₁.Pid.getD "" = c₂.Pid.getD "" ∧
    c₁.Uts.getD "" = c₂.Uts.getD "" ∧
    c₁.Privileged.getD false = c₂.Privileged.getD false ∧
    c₁.PublishAllPorts.getD false = c₂.PublishAllPorts.getD false := by
  obtain ⟨h₁, h₂⟩ := h
  have e6 := congrArg DockerConfig.Image h₁
  have e7 := congrArg DockerConfig.Hostname h₁
  have e8 := congrArg DockerConfig.Domainname h₁
  have e9 := congrArg DockerConfig.WorkingDir h₁
  have e10 := congrArg DockerConfig.User h₁
  have e11 := congrArg DockerConfig.CPUSet h₁
  have e12 := congrArg DockerConfig.CPUShares h₁
  have e13 := congrArg DockerConfig.NetworkDisabled h₁
  have e14 := congrArg DockerHostConfig.PidMode h₂
  have e15 := congrArg DockerHostConfig.UTSMode h₂
  have e16 := congrArg DockerHostConfig.Privileged h₂
  have e17 := congrArg DockerHostConfig.PublishAllPorts h₂
  simp only [GetAPIConfig, GetAPIHostConfig] at e6 e7 e8 e9 e10 e11
  simp only [GetAPIConfig, GetAPIHostConfig] at e12 e13 e14 e15 e16 e17
  clear h₁ h₂
  refine ⟨?_, ?_, ?_, ?_, ?_, ?_, ?_, ?_, ?_, ?_, ?_, ?_⟩
  · cases h : c₁.Image <;> cases h' : c₂.Image <;> simp_all
  · cases h : c₁.Hostname <;> cases h' : c₂.Hostname <;> simp_all
  · cases h : c₁.Domainname <;> cases h' : c₂.Domainname <;> simp_all
  · cases h : c₁.Workdir <;> cases h' : c₂.Workdir <;> simp_all
  · cases h : c₁.User <;> cases h' : c₂.User <;> simp_all
  · cases h : c₁.CpusetCpus <;> cases h' : c₂.CpusetCpus <;> simp_all
  · cases h : c₁.CPUShares <;> cases h' : c₂.CPUShares <;> simp_all
  · cases h : c₁.NetworkDisabled <;> cases h' : c₂.NetworkDisabled <;> simp_all
  · cases h : c₁.Pid <;> cases h' : c₂.Pid <;> simp_all
  · cases h : c₁.Uts <;> cases h' : c₂.Uts <;> simp_all
  · cases h : c₁.Privileged <;> cases h' : c₂.Privileged <;> simp_all
  · cases h : c₁.PublishAllPorts <;> cases h' : c₂.PublishAllPorts <;> simp_all

theorem samePair_memory_net {D : Decls} (E : Extern D) (c₁ c₂ : Container D)
    (h : SamePair E c₁ c₂) :
    E.MemoryInt64 c₁.Memory = E.MemoryInt64 c₂.Memory ∧
    E.MemoryInt64 c₁.MemorySwap = E.MemoryInt64 c₂.MemorySwap ∧
    (Int64IsValue E →
      c₁.Memory.getD 0 = c₂.Memory.getD 0 ∧ c₁.MemorySwap.getD 0 = c₂.MemorySwap.getD 0) ∧
    E.NetString c₁.Net = E.NetString c₂.Net := by
  obtain ⟨h₁, h₂⟩ := h
  have e1 := congrArg DockerHostConfig.Memory h₂
  have e2 := congrArg DockerHostConfig.MemorySwap h₂
  have e3 := congrArg DockerHostConfig.NetworkMode h₂
  have e4 := congrArg DockerConfig.Memory h₁
  have e5 := congrArg DockerConfig.MemorySwap h₁
  simp only [GetAPIConfig, GetAPIHostConfig] at e1 e2 e3 e4 e5
  clear h₁ h₂
  refine ⟨e1, e2, ?_, e3⟩
  intro hv
  constructor
  · cases h : c₁.Memory <;> cases h' : c₂.Memory <;> simp_all [hv _]
  · cases h : c₁.MemorySwap <;> cases h' : c₂.MemorySwap <;> simp_all [hv _]

theorem samePair_lists {D : Decls} (E : Extern D) (c₁ c₂ : Container D)
    (h : SamePair E c₁ c₂) :
    Slice.elems c₁.Ulimits = Slice.elems c₂.Ulimits ∧
    (Slice.elems c₁.Links).map E.LinkString = (Slice.elems c₂.Links).map E.LinkString ∧
    (Slice.elems c₁.VolumesFrom).map E.ContainerNameString =
      (Slice.elems c₂.VolumesFrom).map E.ContainerNameString ∧
    (Slice.elems c₁.Volumes).filter (fun v => strings.Contains v ":") =
      (Slice.elems c₂.Volumes).filter (fun v => strings.Contains v ":") ∧
    (∀ p : String,
      (Slice.elems c₁.Ports).filter (fun r => decide (r.Port = p)) =
        (Slice.elems c₂.Ports).filter (fun r => decide (r.Port = p))) := by
  obtain ⟨_, h₂⟩ := h
  refine ⟨?_, ?_, ?_, ?_, ?_⟩
  · have e := congrArg (fun hc => Slice.elems hc.Ulimits) h₂
    simp only [GetAPIHostConfig] at e
    rw [appendLoop_eq_map
        (fun u : Ulimit => ({ Name := u.Name, Soft := u.Soft, Hard := u.Hard } : DockerULimit)),
      appendLoop_eq_map
        (fun u : Ulimit => ({ Name := u.Name, Soft := u.Soft, Hard := u.Hard } : DockerULimit)),
      Slice.elems_guard_map, Slice.elems_guard_map] at e
    have hinj : Function.Injective
        (fun u : Ulimit => ({ Name := u.Name, Soft := u.Soft, Hard := u.Hard } : DockerULimit)) := by
      intro a b hab
      cases a
      cases b
      simp_all
    exact List.map_injective_iff.mpr hinj e
  · have e := congrArg (fun hc => Slice.elems hc.Links) h₂
    simp only [GetAPIHostConfig] at e
    rw [appendLoop_eq_map E.LinkString, appendLoop_eq_map E.LinkString,
      Slice.elems_guard_map, Slice.elems_guard_map] at e
    exact e
  · have e := congrArg (fun hc => Slice.elems hc.VolumesFrom) h₂
    simp only [GetAPIHostConfig] at e
    rw [appendLoop_eq_map E.ContainerNameString, appendLoop_eq_map E.ContainerNameString,
      Slice.elems_guard_map, Slice.elems_guard_map] at e
    exact e
  · have e := congrArg (fun hc => Slice.elems hc.Binds) h₂
    simp only [GetAPIHostConfig, bindsLoop_eq_filter, Slice.elems_guard] at e
    exact e
  · intro p
    have e := congrArg (fun hc => lookup hc.PortBindings p) h₂
    simp only [lookup_PortBindings_eq] at e
    by_cases f₁ : (Slice.elems c₁.Ports).filter (fun r => decide (r.Port = p)) = []
    · by_cases f₂ : (Slice.elems c₂.Ports).filter (fun r => decide (r.Port = p)) = []
      · rw [f₁, f₂]
      · rw [if_pos f₁, if_neg f₂] at e
        exact absurd e (by simp)
    · by_cases f₂ : (Slice.elems c₂.Ports).filter (fun r => decide (r.Port = p)) = []
      · rw [if_neg f₁, if_pos f₂] at e
        exact absurd e (by simp)
      · rw [if_neg f₁, if_neg f₂] at e
        have e' := Option.some.inj (Option.some.inj e)
        exact published_records_inj p _ _
          (fun r hr => by simpa using (List.mem_filter.mp hr).2)
          (fun r hr => by simpa using (List.mem_filter.mp hr).2) e'

theorem samePair_sets {D : Decls} (E : Extern D) (c₁ c₂ : Container D)
    (h : SamePair E c₁ c₂) :
    (∀ v : String, strings.Contains v ":" = false →
      (v ∈ Slice.elems c₁.Volumes ↔ v ∈ Slice.elems c₂.Volumes)) ∧
    (∀ p : String,
      (p ∈ Slice.elems c₁.Expose ∨ ∃ r ∈ Slice.elems c₁.Ports, r.Port = p) ↔
        (p ∈ Slice.elems c₂.Expose ∨ ∃ r ∈ Slice.elems c₂.Ports, r.Port = p)) := by
  obtain ⟨h₁, _⟩ := h
  constructor
  · intro v hv
    have e := congrArg (fun c => lookup c.Volumes v) h₁
    simp only [lookup_Volumes_eq, hv, and_true] at e
    by_cases m₁ : v ∈ Slice.elems c₁.Volumes <;> by_cases m₂ : v ∈ Slice.elems c₂.Volumes <;>
      simp_all
  · intro p
    rw [← lookup_ExposedPorts_isSome E c₁ p, ← lookup_ExposedPorts_isSome E c₂ p, h₁]

theorem samePair_env {D : Decls} (E : Extern D) (c₁ c₂ : Container D)
    (h : SamePair E c₁ c₂) :
    c₁.Env.isSome = c₂.Env.isSome ∧
    (RangeVisitsAll E →
      ((c₁.Env.getD []).map (fun kv => kv.1 ++ "=" ++ kv.2)).Perm
        ((c₂.Env.getD []).map (fun kv => kv.1 ++ "=" ++ kv.2))) := by
  obtain ⟨h₁, _⟩ := h
  have e := congrArg DockerConfig.Env h₁
  simp only [GetAPIConfig] at e
  clear h₁
  cases e₁ : c₁.Env with
  | none =>
    cases e₂ : c₂.Env with
    | none => simp
    | some env₂ => simp [e₁, e₂] at e
  | some env₁ =>
    cases e₂ : c₂.Env with
    | none => simp [e₁, e₂] at e
    | some env₂ =>
      refine ⟨rfl, ?_⟩
      intro hE
      simp only [e₁, e₂, Option.some.injEq] at e
      simp only [Option.getD_some]
      have p₁ := env_perm E hE env₁
      have p₂ := env_perm E hE env₂
      rw [e] at p₁
      exact p₁.symm.trans p₂

theorem samePair_restart_log {D : Decls} (E : Extern D) (c₁ c₂ : Container D)
    (h : SamePair E c₁ c₂) :
    ((if E.StateBool c₁.State && c₁.Restart.isNone then
        E.RestartToDockerAPI (some { Name := "always", MaximumRetryCount := 0 })
      else E.RestartToDockerAPI c₁.Restart) =
      (if E.StateBool c₂.State && c₂.Restart.isNone then
        E.RestartToDockerAPI (some { Name := "always", MaximumRetryCount := 0 })
      else E.RestartToDockerAPI c₂.Restart)) ∧
    (∀ r₁ r₂, c₁.Restart = some r₁ → c₂.Restart = some r₂ →
      E.RestartToDockerAPI (some r₁) = E.RestartToDockerAPI (some r₂)) ∧
    logConfig c₁.LogDriver c₁.LogOpt = logConfig c₂.LogDriver c₂.LogOpt ∧
    (∀ m₁ m₂, c₁.LogOpt = some m₁ → c₂.LogOpt = some m₂ → m₁ = m₂) ∧
    (∀ d₁ d₂, c₁.LogDriver = some d₁ → c₂.LogDriver = some d₂ → d₁ ≠ "" → d₂ ≠ "" →
      d₁ = d₂) := by
  obtain ⟨_, h₂⟩ := h
  have er := congrArg DockerHostConfig.RestartPolicy h₂
  have el := congrArg DockerHostConfig.LogConfig h₂
  simp only [GetAPIHostConfig] at er el
  refine ⟨er, ?_, el, ?_, ?_⟩
  · intro r₁ r₂ hr₁ hr₂
    simpa [hr₁, hr₂] using er
  · intro m₁ m₂ hm₁ hm₂
    have ec := congrArg DockerLogConfig.Config el
    simpa [logConfig, hm₁, hm₂] using ec
  · intro d₁ d₂ hd₁ hd₂ hn₁ hn₂
    have et := congrArg DockerLogConfig.Type_ el
    cases o₁ : c₁.LogOpt <;> cases o₂ : c₂.LogOpt <;>
      simpa [logConfig, hd₁, hd₂, o₁, o₂, hn₁, hn₂] using et

theorem agree_samePair {D : Decls} (E : Extern D) (c₁ c₂ : Container D)
    (h : AgreeUpToAbsence E c₁ c₂) : SamePair E c₁ c₂ := by
  obtain ⟨⟨hEntry, hCmd, hLabels, hDNS, hAddHost, hEnv, hMem, hSwap, hNet, hRestart, hDriver,
    hOpt⟩, hState, ⟨hExpose, hPorts, hVolumes, hLinks, hVolumesFrom, hUlimits⟩,
    ⟨hImage, hHostname, hDomainname, hWorkdir, hUser, hCpuset, hShares, hNetDis, hPid, hUts,
    hPriv, hPublishAll⟩⟩ := h
  constructor
  · simp only [GetAPIConfig, Slice.len, DockerConfig.mk.injEq]
    refine ⟨hEntry, hLabels, ?_, ?_, ?_, ?_, ?_, ?_, ?_, ?_, ?_, ?_, ?_, ?_, ?_, ?_⟩
    · rw [hCmd]
    · cases h : c₁.Image <;> cases h' : c₂.Image <;> simp_all
    · cases h : c₁.Hostname <;> cases h' : c₂.Hostname <;> simp_all
    · cases h : c₁.Domainname <;> cases h' : c₂.Domainname <;> simp_all
    · cases h : c₁.Workdir <;> cases h' : c₂.Workdir <;> simp_all
    · cases h : c₁.User <;> cases h' : c₂.User <;> simp_all
    · rw [hMem]
    · rw [hSwap]
    · cases h : c₁.CpusetCpus <;> cases h' : c₂.CpusetCpus <;> simp_all
    · cases h : c₁.CPUShares <;> cases h' : c₂.CPUShares <;> simp_all
    · cases h : c₁.NetworkDisabled <;> cases h' : c₂.NetworkDisabled <;> simp_all
    · simp only [hExpose, hPorts]
    · rw [hEnv]
    · cases h : c₁.Volumes <;> cases h' : c₂.Volumes <;>
        simp_all [Slice.elems, hostVolumesLoop]
  · simp only [GetAPIHostConfig, Slice.len, DockerHostConfig.mk.injEq]
    refine ⟨hDNS, hAddHost, ?_, ?_, ?_, ?_, ?_, ?_, ?_, ?_, ?_, ?_, ?_, ?_, ?_, ?_, ?_⟩
    · rw [hState, hRestart]
    · rw [hMem]
    · rw [hSwap]
    · rw [hNet]
    · cases h : c₁.Pid <;> cases h' : c₂.Pid <;> simp_all
    · cases h : c₁.Uts <;> cases h' : c₂.Uts <;> simp_all
    · cases h : c₁.CpusetCpus <;> cases h' : c₂.CpusetCpus <;> simp_all
    · simp only [hVolumes]
    · cases h : c₁.Privileged <;> cases h' : c₂.Privileged <;> simp_all
    · cases h : c₁.PublishAllPorts <;> cases h' : c₂.PublishAllPorts <;> simp_all
    · simp only [hPorts]
    · rw [hDriver, hOpt]
    · simp only [hLinks]
    · simp only [hVolumesFrom]
    · simp only [hUlimits]

theorem restart_default_samePair {D : Decls} (E : Extern D) (c : Container D)
    (hs : E.StateBool c.State = true) (hr : c.Restart = none) :
    SamePair E c { c with Restart := some { Name := "always", MaximumRetryCount := 0 } } := by
  constructor
  · rfl
  · simp [GetAPIHostConfig, hs, hr]

/-- C15, amended. The pair of projections keeps a spec up to absence and no further.
Two specs with the same `docker.Config` and the same `docker.HostConfig` have the same
entrypoint, command, labels, DNS list and extra hosts; agree on image, hostname, domain
name, working directory, user, CPU set, CPU shares, network-disabled, PID mode, UTS mode,
privileged and publish-all-ports once an absent field is read as its zero value; have the
same `Int64()` of memory and memory+swap (the same value up to zero when `Int64()` returns
the value) and the same `String()` of the network; have the same ulimit entries, the same
rendered links and volumes-from references, the same bind mounts in order and, for every
port, the same publish records in order; have the same plain volumes and the same
declared-or-published ports as sets; have the environment present together, with the same
rendered entries up to order; have the same restart policy after the default for running
specs, hence the same docker encoding of the restart policy when both set one; and have
the same resolved log configuration, hence the same log options when both set them and
the same log driver when both set a non-empty one.
Conversely, two specs that agree up to absence have the same pair, and so do a spec that
counts as running without a restart policy and the same spec with the explicit policy
`always`. -/
theorem projections_keep_up_to_zero {D : Decls} (E : Extern D) (c₁ c₂ : Container D) :
    (SamePair E c₁ c₂ →
      (c₁.Entrypoint = c₂.Entrypoint ∧ c₁.Cmd = c₂.Cmd ∧ c₁.Labels = c₂.Labels ∧
        c₁.DNS = c₂.DNS ∧ c₁.AddHost = c₂.AddHost) ∧
      (c₁.Image.getD "" = c₂.Image.getD "" ∧
        c₁.Hostname.getD "" = c₂.Hostname.getD "" ∧
        c₁.Domainname.getD "" = c₂.Domainname.getD "" ∧
        c₁.Workdir.getD "" = c₂.Workdir.getD "" ∧
        c₁.User.getD "" = c₂.User.getD "" ∧
        c₁.CpusetCpus.getD "" = c₂.CpusetCpus.getD "" ∧
        c₁.CPUShares.getD 0 = c₂.CPUShares.getD 0 ∧
        c₁.NetworkDisabled.getD false = c₂.NetworkDisabled.getD false ∧
        c₁.Pid.getD "" = c₂.Pid.getD "" ∧
        c₁.Uts.getD "" = c₂.Uts.getD "" ∧
        c₁.Privileged.getD false = c₂.Privileged.getD false ∧
        c₁.PublishAllPorts.getD false = c₂.PublishAllPorts.getD false) ∧
      (E.MemoryInt64 c₁.Memory = E.MemoryInt64 c₂.Memory ∧
        E.MemoryInt64 c₁.MemorySwap = E.MemoryInt64 c₂.MemorySwap ∧
        (Int64IsValue E →
          c₁.Memory.getD 0 = c₂.Memory.getD 0 ∧
          c₁.MemorySwap.getD 0 = c₂.MemorySwap.getD 0) ∧
        E.NetString c₁.Net = E.NetString c₂.Net) ∧
      (Slice.elems c₁.Ulimits = Slice.elems c₂.Ulimits ∧
        (Slice.elems c₁.Links).map E.LinkString = (Slice.elems c₂.Links).map E.LinkString ∧
        (Slice.elems c₁.VolumesFrom).map E.ContainerNameString =
          (Slice.elems c₂.VolumesFrom).map E.ContainerNameString ∧
        (Slice.elems c₁.Volumes).filter (fun v => strings.Contains v ":") =
          (Slice.elems c₂.Volumes).filter (fun v => strings.Contains v ":") ∧
        (∀ p : String,
          (Slice.elems c₁.Ports).filter (fun r => decide (r.Port = p)) =
            (Slice.elems c₂.Ports).filter (fun r => decide (r.Port = p)))) ∧
      ((∀ v : String, strings.Contains v ":" = false →
          (v ∈ Slice.elems c₁.Volumes ↔ v ∈ Slice.elems c₂.Volumes)) ∧
        (∀ p : String,
          (p ∈ Slice.elems c₁.Expose ∨ ∃ r ∈ Slice.elems c₁.Ports, r.Port = p) ↔
            (p ∈ Slice.elems c₂.Expose ∨ ∃ r ∈ Slice.elems c₂.Ports, r.Port = p))) ∧
      (c₁.Env.isSome = c₂.Env.isSome ∧
        (RangeVisitsAll E →
          ((c₁.Env.getD []).map (fun kv => kv.1 ++ "=" ++ kv.2)).Perm
            ((c₂.Env.getD []).map (fun kv => kv.1 ++ "=" ++ kv.2)))) ∧
      (((if E.StateBool c₁.State && c₁.Restart.isNone then
            E.RestartToDockerAPI (some { Name := "always", MaximumRetryCount := 0 })
          else E.RestartToDockerAPI c₁.Restart) =
          (if E.StateBool c₂.State && c₂.Restart.isNone then
            E.RestartToDockerAPI (some { Name := "always", MaximumRetryCount := 0 })
          else E.RestartToDockerAPI c₂.Restart)) ∧
        (∀ r₁ r₂, c₁.Restart = some r₁ → c₂.Restart = some r₂ →
          E.RestartToDockerAPI (some r₁) = E.RestartToDockerAPI (some r₂)) ∧
        logConfig c₁.LogDriver c₁.LogOpt = logConfig c₂.LogDriver c₂.LogOpt ∧
        (∀ m₁ m₂, c₁.LogOpt = some m₁ → c₂.LogOpt = some m₂ → m₁ = m₂) ∧
        (∀ d₁ d₂, c₁.LogDriver = some d₁ → c₂.LogDriver = some d₂ → d₁ ≠ "" → d₂ ≠ "" →
          d₁ = d₂))) ∧
    (AgreeUpToAbsence E c₁ c₂ → SamePair E c₁ c₂) ∧
    (E.StateBool c₁.State = true → c₁.Restart = none →
      SamePair E c₁
        { c₁ with Restart := some { Name := "always", MaximumRetryCount := 0 } }) :=
  ⟨fun h => ⟨samePair_exact E c₁ c₂ h, samePair_scalars E c₁ c₂ h,
      samePair_memory_net E c₁ c₂ h, samePair_lists E c₁ c₂ h, samePair_sets E c₁ c₂ h,
      samePair_env E c₁ c₂ h, samePair_restart_log E c₁ c₂ h⟩,
    agree_samePair E c₁ c₂, restart_default_samePair E c₁⟩

/-- Witness for C15, amended: the spec with every field absent and the spec with an
explicitly empty hostname and an explicitly false privileged flag agree up to absence,
so they have the same pair, and from the same pair their hostnames agree once the absent
one is read as the empty string. -/
theorem projections_keep_up_to_zero_witness :
    (SamePair sampleExtern emptySpec explicitZeroSpec ∧
      AgreeUpToAbsence sampleExtern emptySpec explicitZeroSpec ∧
      sampleExtern.StateBool emptySpec.State = true ∧ emptySpec.Restart = none) ∧
    emptySpec.Hostname.getD "" = explicitZeroSpec.Hostname.getD "" ∧
    SamePair sampleExtern emptySpec explicitZeroSpec ∧
    SamePair sampleExtern emptySpec
      { emptySpec with Restart := some { Name := "always", MaximumRetryCount := 0 } } := by
  have hsame : SamePair sampleExtern emptySpec explicitZeroSpec := by decide
  have hagree : AgreeUpToAbsence sampleExtern emptySpec explicitZeroSpec := by
    unfold AgreeUpToAbsence
    decide
  exact ⟨⟨hsame, hagree, rfl, rfl⟩,
    ((projections_keep_up_to_zero sampleExtern emptySpec explicitZeroSpec).1 hsame).2.1.2.1,
    (projections_keep_up_to_zero sampleExtern emptySpec explicitZeroSpec).2.1 hagree,
    (projections_keep_up_to_zero sampleExtern emptySpec explicitZeroSpec).2.2 rfl rfl⟩

end Compose
